import Mathlib

/-! # CircuitPlaygroundGestures: debounced switch and gesture arbiter

A shallow embedding of `src/DebouncedSwitch.h` and of
`CircuitPlaygroundGestures::update` (`src/CircuitPlaygroundGestures.{h,cpp}`),
followed by theorems about them.

Conventions.
* A `uint32_t` is a natural number; the only arithmetic the code performs on
  timestamps is unsigned subtraction, embedded as `sub32` (reduction modulo `2^32`).
* Early `return`s become nested `if ... then ... else`; a method that mutates
  `this` returns the new object together with its result.
-/

/-- Unsigned 32-bit subtraction `a - b` of two `uint32_t` values (wraps modulo `2^32`). -/
def sub32 (a b : Nat) : Nat := (a + (4294967296 - b % 4294967296)) % 4294967296

/-! ## `DebouncedSwitch.h` -/

/-- The member variables of `class DebouncedSwitch`. -/
structure DebouncedSwitch where
  /-- Field `_on_state`: the raw level that means "on". -/
  on_state : Bool
  /-- Field `_debounced_reading`. -/
  debounced_reading : Bool
  /-- Field `_prev_reading`. -/
  prev_reading : Bool
  /-- Field `_last_reading_change_tm`, a `uint32_t`. -/
  last_reading_change_tm : Nat
deriving DecidableEq, Repr

namespace DebouncedSwitch

/-- The enumeration `DebouncedSwitch::Input`. -/
inductive Input where
  | NONE
  | SWITCHED_ON
  | SWITCHED_OFF
deriving DecidableEq, Repr

/-- The constant `DEBOUNCE_MS`. -/
def DEBOUNCE_MS : Nat := 20

/-- The constructor `DebouncedSwitch(bool on_state)` with the in-class member initialisers. -/
def init (on_state : Bool) : DebouncedSwitch :=
  { on_state := on_state, debounced_reading := false, prev_reading := false,
    last_reading_change_tm := 0 }

/-- The method `state()`. -/
def state (s : DebouncedSwitch) : Bool := s.debounced_reading == s.on_state

/-- The method `update(reading, tm)`: the object after the call and the returned input. -/
def update (s : DebouncedSwitch) (reading : Bool) (tm : Nat) : DebouncedSwitch × Input :=
  if s.prev_reading != reading then
    ({ s with last_reading_change_tm := tm, prev_reading := reading }, Input.NONE)
  else if s.debounced_reading != reading then
    let reading_duration := sub32 tm s.last_reading_change_tm
    if reading_duration > DEBOUNCE_MS then
      let s1 := { s with debounced_reading := reading }
      (s1, if s1.debounced_reading == s1.on_state then Input.SWITCHED_ON else Input.SWITCHED_OFF)
    else
      (s, Input.NONE)
  else
    (s, Input.NONE)

/-- The reference algorithm of the specification, written from its three cases (a), (b), (c),
with the elapsed time taken as the integer difference reduced modulo `2^32`. -/
def update_reference (s : DebouncedSwitch) (reading : Bool) (tm : Nat) :
    DebouncedSwitch × Input :=
  if reading ≠ s.prev_reading then
    (DebouncedSwitch.mk s.on_state s.debounced_reading reading tm, Input.NONE)
  else if s.debounced_reading ≠ reading ∧
      ((tm : Int) - (s.last_reading_change_tm : Int)) % (2 : Int) ^ 32 > 20 then
    (DebouncedSwitch.mk s.on_state reading s.prev_reading s.last_reading_change_tm,
      if reading = s.on_state then Input.SWITCHED_ON else Input.SWITCHED_OFF)
  else
    (s, Input.NONE)

/-- The object after a sequence of `update(reading, tm)` calls. -/
def run (s : DebouncedSwitch) : List (Bool × Nat) → DebouncedSwitch
  | [] => s
  | c :: cs => run (s.update c.1 c.2).1 cs

/-- The inputs returned by a sequence of `update(reading, tm)` calls, in call order. -/
def outputs (s : DebouncedSwitch) : List (Bool × Nat) → List Input
  | [] => []
  | c :: cs => (s.update c.1 c.2).2 :: outputs (s.update c.1 c.2).1 cs

end DebouncedSwitch

/-! ## `<DebouncedButton.h>`: the interface the arbiter uses

`DebouncedButton` comes from a separate library.  The arbiter is embedded over an arbitrary
implementation of the members it calls. -/

/-- The values of `DebouncedButton::Input` named in `CircuitPlaygroundGestures.cpp`. -/
inductive ButtonInput where
  | NONE
  | CLICK
  | LONG_PRESS
  | RELEASE
  | DOUBLE_CLICK
deriving DecidableEq, Repr

/-- The members of `DebouncedButton` that `CircuitPlaygroundGestures` calls, over a type `β`
of button objects. -/
structure DebouncedButtonOps (β : Type) where
  /-- The constant `DebouncedButton::CLICKED_CUTOFF_MS`. -/
  CLICKED_CUTOFF_MS : Nat
  /-- The default-constructed button. -/
  init : β
  /-- The method `input_pending()`. -/
  input_pending : β → Bool
  /-- The method `update(reading, tm)`: the object after the call and the returned input. -/
  update : β → Bool → Nat → β × ButtonInput
  /-- The method `state()`. -/
  state : β → Bool
  /-- The method `duration(tm)`. -/
  duration : β → Nat → Nat

/-! ## `float` arithmetic

The code computes on `float`.  The embedding is over an arbitrary carrier `F` with the
operations the code uses, so that every theorem holds whatever the rounding is. -/

/-- The `float` operations used by `CircuitPlaygroundGestures`. -/
structure FloatOps (F : Type) where
  /-- The `float` denoted by a decimal literal. -/
  lit : ℚ → F
  /-- Operator `+`. -/
  add : F → F → F
  /-- Operator `-`. -/
  sub : F → F → F
  /-- Operator `*`. -/
  mul : F → F → F
  /-- Function `sqrt`. -/
  sqrt : F → F
  /-- Operator `<` (and `a > b` is `lt b a`). -/
  lt : F → F → Bool

/-! ## `CircuitPlaygroundGestures.h` -/

/-- The enumeration `CircuitPlaygroundGestures::Gesture`. -/
inductive CircuitPlaygroundGestures.Gesture where
  | NONE
  | ORIENTATION_CHANGED
  | SHAKEN
  | DOUBLE_TAPPED
  | SLIDE_SWITCHED_ON
  | SLIDE_SWITCHED_OFF
  | LEFT_PRESSED
  | RIGHT_PRESSED
  | LEFT_CLICKED
  | RIGHT_CLICKED
  | LEFT_RELEASED
  | RIGHT_RELEASED
  | BOTH_CLICKED
  | BOTH_PRESSED
  | BOTH_RELEASED
  | LEFT_HELD_RIGHT_CLICKED
  | RIGHT_HELD_LEFT_CLICKED
  | LEFT_DOUBLE_CLICKED
  | RIGHT_DOUBLE_CLICKED
deriving DecidableEq, Repr

/-- The enumeration `CircuitPlaygroundGestures::Orientation`. -/
inductive CircuitPlaygroundGestures.Orientation where
  | UNKNOWN_ORIENTATION
  | Z_UP
  | Z_DOWN
  | Y_UP
  | Y_DOWN
  | X_UP
  | X_DOWN
deriving DecidableEq, Repr

/-- The anonymous struct of the member `_acceleration`. -/
structure Acceleration (F : Type) where
  /-- Field `x`. -/
  x : F
  /-- Field `y`. -/
  y : F
  /-- Field `z`. -/
  z : F

/-- The member variables of `class CircuitPlaygroundGestures`, over the `float` carrier `F`
and the button objects `β`. -/
structure CircuitPlaygroundGestures (F β : Type) where
  /-- Field `_slide_switch_reading` (volatile, written by the pin-change handler). -/
  slide_switch_reading : Bool
  /-- Field `_left_button_reading` (volatile). -/
  left_button_reading : Bool
  /-- Field `_right_button_reading` (volatile). -/
  right_button_reading : Bool
  /-- Field `_accelerometer_interrupted` (volatile, set by the accelerometer handler). -/
  accelerometer_interrupted : Bool
  /-- Field `_slide_switch`. -/
  slide_switch : DebouncedSwitch
  /-- Field `_left_button`. -/
  left_button : β
  /-- Field `_right_button`. -/
  right_button : β
  /-- Field `_tap_ignore_start_tm`, a `uint32_t`. -/
  tap_ignore_start_tm : Nat
  /-- Field `_shake_reset_start_tm`, a `uint32_t`. -/
  shake_reset_start_tm : Nat
  /-- Field `_orientation`. -/
  orientation : CircuitPlaygroundGestures.Orientation
  /-- Field `_acceleration`. -/
  acceleration : Acceleration F

/-- What the accelerometer driver answers during one call of `update`: the three registers
read with `readRegister` and the sample of `lis.getEvent`. -/
structure Lis3dh (F : Type) where
  /-- Register `LIS3DH_REG_STATUS2`. -/
  status_reg : Nat
  /-- Register `LIS3DH_REG_CLICKSRC`. -/
  click_src : Nat
  /-- Register `LIS3DH_REG_INT1SRC`. -/
  int1_src : Nat
  /-- Sample component `event.acceleration.x`. -/
  acc_x : F
  /-- Sample component `event.acceleration.y`. -/
  acc_y : F
  /-- Sample component `event.acceleration.z`. -/
  acc_z : F

namespace CircuitPlaygroundGestures

/-- The constant `TAP_IGNORE_THRESHOLD`. -/
def TAP_IGNORE_THRESHOLD {F : Type} (A : FloatOps F) : F := A.lit 16

/-- The constant `TAP_IGNORE_MS`. -/
def TAP_IGNORE_MS : Nat := 250

/-- The constant `SHAKE_RESET_MS`. -/
def SHAKE_RESET_MS : Nat := 500

/-- The constant `SHAKE_THRESHOLD`. -/
def SHAKE_THRESHOLD {F : Type} (A : FloatOps F) : F := A.lit 22

/-- The constant `ACCEL_DECAY`. -/
def ACCEL_DECAY {F : Type} (A : FloatOps F) : F := A.lit (6 / 10)

/-- The method `_acceleration.total()`. -/
def total {F : Type} (A : FloatOps F) (a : Acceleration F) : F :=
  A.sqrt (A.add (A.add (A.mul a.x a.x) (A.mul a.y a.y)) (A.mul a.z a.z))

/-- The method `_acceleration.add_sample(x, y, z)`. -/
def add_sample {F : Type} (A : FloatOps F) (a : Acceleration F) (x y z : F) : Acceleration F :=
  { x := A.add (A.mul a.x (ACCEL_DECAY A)) (A.mul x (A.sub (A.lit 1) (ACCEL_DECAY A)))
    y := A.add (A.mul a.y (ACCEL_DECAY A)) (A.mul y (A.sub (A.lit 1) (ACCEL_DECAY A)))
    z := A.add (A.mul a.z (ACCEL_DECAY A)) (A.mul z (A.sub (A.lit 1) (ACCEL_DECAY A))) }

/-- The static method `orientation_for_int1_src(byte int1_src)`. -/
def orientation_for_int1_src (int1_src : Nat) : Orientation :=
  if int1_src &&& 0x20 ≠ 0 then Orientation.Z_UP
  else if int1_src &&& 0x10 ≠ 0 then Orientation.Z_DOWN
  else if int1_src &&& 0x08 ≠ 0 then Orientation.Y_UP
  else if int1_src &&& 0x04 ≠ 0 then Orientation.Y_DOWN
  else if int1_src &&& 0x02 ≠ 0 then Orientation.X_UP
  else if int1_src &&& 0x01 ≠ 0 then Orientation.X_DOWN
  else Orientation.UNKNOWN_ORIENTATION

/-- The orientation of the first set bit of a byte in the priority order `0x20` (Z_UP),
`0x10` (Z_DOWN), `0x08` (Y_UP), `0x04` (Y_DOWN), `0x02` (X_UP), `0x01` (X_DOWN), and
`UNKNOWN_ORIENTATION` when none is set; the bit of mask `m` is set in `b` when `b / m` is
odd.  This is the specification that `orientation_for_int1_src` is compared with. -/
def first_set_orientation (b : Nat) : Orientation :=
  match [(0x20, Orientation.Z_UP), (0x10, Orientation.Z_DOWN), (0x08, Orientation.Y_UP),
      (0x04, Orientation.Y_DOWN), (0x02, Orientation.X_UP), (0x01, Orientation.X_DOWN)].find?
      (fun p => b / p.1 % 2 == 1) with
  | some p => p.2
  | none => Orientation.UNKNOWN_ORIENTATION

/-- The object as constructed by `instance()`: every member at its in-class initialiser. -/
def init {F β : Type} (A : FloatOps F) (B : DebouncedButtonOps β) :
    CircuitPlaygroundGestures F β :=
  { slide_switch_reading := false
    left_button_reading := false
    right_button_reading := false
    accelerometer_interrupted := false
    slide_switch := DebouncedSwitch.init true
    left_button := B.init
    right_button := B.init
    tap_ignore_start_tm := 0
    shake_reset_start_tm := 0
    orientation := Orientation.UNKNOWN_ORIENTATION
    acceleration := { x := A.lit 0, y := A.lit 0, z := A.lit 0 } }

/-- Lines 133-140 of `update`: the orientation part of the interrupt branch.  The result is
the object and `some g` when the call returns `g` here, `none` when it falls through. -/
def update_orientation {F β : Type} (s : CircuitPlaygroundGestures F β) (dev : Lis3dh F) :
    CircuitPlaygroundGestures F β × Option Gesture :=
  if dev.int1_src &&& 0x3F ≠ 0 then
    let new_orientation := orientation_for_int1_src (dev.int1_src % 256)
    if s.orientation ≠ new_orientation then
      ({ s with orientation := new_orientation }, some Gesture.ORIENTATION_CHANGED)
    else
      (s, none)
  else
    (s, none)

/-- Lines 122-162 of `update`: the accelerometer part.  The result is the object and
`some g` when the call returns `g` here, `none` when it falls through to line 164. -/
def update_accelerometer {F β : Type} (A : FloatOps F) (s : CircuitPlaygroundGestures F β)
    (dev : Lis3dh F) (tm : Nat) : CircuitPlaygroundGestures F β × Option Gesture :=
  if s.accelerometer_interrupted then
    let s1 := { s with accelerometer_interrupted := false }
    if dev.click_src &&& 0x60 ≠ 0 then
      if sub32 tm s1.tap_ignore_start_tm > TAP_IGNORE_MS then
        (s1, some Gesture.DOUBLE_TAPPED)
      else
        update_orientation s1 dev
    else
      update_orientation s1 dev
  else if dev.status_reg &&& 0x08 ≠ 0 then
    let s1 := { s with
      acceleration := add_sample A s.acceleration dev.acc_x dev.acc_y dev.acc_z }
    let s2 := if A.lt (TAP_IGNORE_THRESHOLD A) (total A s1.acceleration) then
      { s1 with tap_ignore_start_tm := tm } else s1
    if A.lt (SHAKE_THRESHOLD A) (total A s2.acceleration) then
      if sub32 tm s2.shake_reset_start_tm ≥ SHAKE_RESET_MS then
        ({ s2 with shake_reset_start_tm := tm }, some Gesture.SHAKEN)
      else
        (s2, some Gesture.NONE)
    else
      (s2, none)
  else
    (s, none)

/-- Lines 189-223 of `update`: the gesture for the two button inputs and the held flags. -/
def button_gesture (left_input right_input : ButtonInput) (left_held right_held : Bool) :
    Gesture :=
  if right_input = ButtonInput.NONE then
    if left_input = ButtonInput.CLICK then
      (if right_held then Gesture.RIGHT_HELD_LEFT_CLICKED else Gesture.LEFT_CLICKED)
    else if left_input = ButtonInput.LONG_PRESS then
      (if right_held then Gesture.BOTH_PRESSED else Gesture.LEFT_PRESSED)
    else if left_input = ButtonInput.RELEASE then Gesture.LEFT_RELEASED
    else if left_input = ButtonInput.DOUBLE_CLICK then Gesture.LEFT_DOUBLE_CLICKED
    else Gesture.NONE
  else if left_input = ButtonInput.NONE then
    if right_input = ButtonInput.CLICK then
      (if left_held then Gesture.LEFT_HELD_RIGHT_CLICKED else Gesture.RIGHT_CLICKED)
    else if right_input = ButtonInput.LONG_PRESS then
      (if left_held then Gesture.BOTH_PRESSED else Gesture.RIGHT_PRESSED)
    else if right_input = ButtonInput.RELEASE then Gesture.RIGHT_RELEASED
    else if right_input = ButtonInput.DOUBLE_CLICK then Gesture.RIGHT_DOUBLE_CLICKED
    else Gesture.NONE
  else if right_input = ButtonInput.LONG_PRESS then
    (if left_input = ButtonInput.LONG_PRESS then Gesture.BOTH_PRESSED
      else Gesture.RIGHT_PRESSED)
  else if right_input = ButtonInput.RELEASE then
    (if left_input = ButtonInput.RELEASE then Gesture.BOTH_RELEASED
      else Gesture.RIGHT_RELEASED)
  else if right_input = ButtonInput.CLICK then
    (if left_input = ButtonInput.CLICK then Gesture.BOTH_CLICKED else Gesture.RIGHT_CLICKED)
  else Gesture.NONE

/-- Lines 164-223 of `update`: the button-activity check, the slide switch and the buttons. -/
def update_inputs {F β : Type} (B : DebouncedButtonOps β) (s : CircuitPlaygroundGestures F β)
    (tm : Nat) : CircuitPlaygroundGestures F β × Gesture :=
  let s1 := if B.input_pending s.left_button || B.input_pending s.right_button then
    { s with tap_ignore_start_tm := tm } else s
  let sw := s1.slide_switch.update s1.slide_switch_reading tm
  let s2 := { s1 with slide_switch := sw.1 }
  let switch_input := sw.2
  if switch_input ≠ DebouncedSwitch.Input.NONE then
    ({ s2 with tap_ignore_start_tm := tm },
      if switch_input = DebouncedSwitch.Input.SWITCHED_ON then Gesture.SLIDE_SWITCHED_ON
      else Gesture.SLIDE_SWITCHED_OFF)
  else
    let l := B.update s2.left_button s2.left_button_reading tm
    let r := B.update s2.right_button s2.right_button_reading tm
    let s3 := { s2 with left_button := l.1, right_button := r.1 }
    let left_input := l.2
    let right_input := r.2
    if left_input = ButtonInput.NONE ∧ right_input = ButtonInput.NONE then
      (s3, Gesture.NONE)
    else
      let s4 := { s3 with tap_ignore_start_tm := tm }
      let left_held := B.state s4.left_button &&
        decide (B.duration s4.left_button tm > B.CLICKED_CUTOFF_MS)
      let right_held := B.state s4.right_button &&
        decide (B.duration s4.right_button tm > B.CLICKED_CUTOFF_MS)
      (s4, button_gesture left_input right_input left_held right_held)

/-- The method `update(tm)`: the object after the call and the returned gesture. -/
def update {F β : Type} (A : FloatOps F) (B : DebouncedButtonOps β)
    (s : CircuitPlaygroundGestures F β) (dev : Lis3dh F) (tm : Nat) :
    CircuitPlaygroundGestures F β × Gesture :=
  match update_accelerometer A s dev tm with
  | (s1, some g) => (s1, g)
  | (s1, none) => update_inputs B s1 tm

/-! ### Sequences of polls -/

end CircuitPlaygroundGestures

/-- One poll of the application loop: the time of the poll, what the interrupt handlers have
stored since the previous poll, and what the accelerometer driver answers during the call. -/
structure Poll (F : Type) where
  /-- The time of the poll in ticks; `update` receives it as a `uint32_t`, i.e. modulo
  `2^32`. -/
  tm : Nat
  /-- The slide-switch level last stored by `slide_switch_changed()`. -/
  slide_switch_level : Bool
  /-- The left-button level last stored by `left_button_changed()`. -/
  left_button_level : Bool
  /-- The right-button level last stored by `right_button_changed()`. -/
  right_button_level : Bool
  /-- Whether `accelerometer_interrupt()` ran since the previous poll. -/
  accelerometer_interrupt : Bool
  /-- The driver's answers during the call. -/
  dev : Lis3dh F

namespace CircuitPlaygroundGestures

/-- The effect of the interrupt handlers (`slide_switch_changed`, `left_button_changed`,
`right_button_changed`, `accelerometer_interrupt`) that ran before a poll. -/
def latch {F β : Type} (s : CircuitPlaygroundGestures F β) (p : Poll F) :
    CircuitPlaygroundGestures F β :=
  { s with
    slide_switch_reading := p.slide_switch_level
    left_button_reading := p.left_button_level
    right_button_reading := p.right_button_level
    accelerometer_interrupted := s.accelerometer_interrupted || p.accelerometer_interrupt }

/-- One poll: the handlers' writes, then `update(tm)`. -/
def poll {F β : Type} (A : FloatOps F) (B : DebouncedButtonOps β)
    (s : CircuitPlaygroundGestures F β) (p : Poll F) :
    CircuitPlaygroundGestures F β × Gesture :=
  update A B (latch s p) p.dev (p.tm % 4294967296)

/-- The object after a sequence of polls. -/
def run {F β : Type} (A : FloatOps F) (B : DebouncedButtonOps β)
    (s : CircuitPlaygroundGestures F β) : List (Poll F) → CircuitPlaygroundGestures F β
  | [] => s
  | p :: ps => run A B (poll A B s p).1 ps

/-- The gestures returned by a sequence of polls, in call order. -/
def gestures {F β : Type} (A : FloatOps F) (B : DebouncedButtonOps β)
    (s : CircuitPlaygroundGestures F β) : List (Poll F) → List Gesture
  | [] => []
  | p :: ps => (poll A B s p).2 :: gestures A B (poll A B s p).1 ps

/-- The call `update(tm)` on `s` feeds the filter a sample after which the magnitude exceeds
`TAP_IGNORE_THRESHOLD`. -/
def sample_over_tap_threshold {F β : Type} (A : FloatOps F)
    (s : CircuitPlaygroundGestures F β) (dev : Lis3dh F) : Prop :=
  s.accelerometer_interrupted = false ∧ dev.status_reg &&& 0x08 ≠ 0 ∧
    A.lt (TAP_IGNORE_THRESHOLD A)
      (total A (add_sample A s.acceleration dev.acc_x dev.acc_y dev.acc_z)) = true

/-- The call `update(tm)` on `s` gets past the accelerometer part and then finds input
pending on a button, or obtains an event from the slide-switch debouncer or from a button
debouncer. -/
def input_activity {F β : Type} (A : FloatOps F) (B : DebouncedButtonOps β)
    (s : CircuitPlaygroundGestures F β) (dev : Lis3dh F) (tm : Nat) : Prop :=
  (update_accelerometer A s dev tm).2 = none ∧
    (B.input_pending s.left_button = true ∨ B.input_pending s.right_button = true ∨
      (s.slide_switch.update s.slide_switch_reading tm).2 ≠ DebouncedSwitch.Input.NONE ∨
      (B.update s.left_button s.left_button_reading tm).2 ≠ ButtonInput.NONE ∨
      (B.update s.right_button s.right_button_reading tm).2 ≠ ButtonInput.NONE)

/-- The call `update(tm)` on `s` gets past the accelerometer part and the slide-switch
debouncer then sees a raw edge (a reading different from its previous raw reading). -/
def slide_switch_raw_edge {F β : Type} (A : FloatOps F)
    (s : CircuitPlaygroundGestures F β) (dev : Lis3dh F) (tm : Nat) : Prop :=
  (update_accelerometer A s dev tm).2 = none ∧
    s.slide_switch.prev_reading ≠ s.slide_switch_reading

end CircuitPlaygroundGestures

/-! ## Concrete collaborators for closed runs -/

/-- The largest `k ≤ n` with `k * k ≤ n`. -/
def floor_sqrt (n : Nat) : Nat :=
  (List.range (n + 1)).foldl (fun r k => if k * k ≤ n then k else r) 0

/-- Exact rational arithmetic as an interpretation of the `float` operations.  The square
root is exact on squares of rationals (elsewhere it takes the integer roots of numerator and
denominator). -/
def exact_arith : FloatOps ℚ :=
  { lit := fun q => q
    add := fun a b => a + b
    sub := fun a b => a - b
    mul := fun a b => a * b
    sqrt := fun q => mkRat (floor_sqrt q.num.toNat) (floor_sqrt q.den)
    lt := fun a b => decide (a < b) }

/-- Modelled from the spec: the class `DebouncedButton` of `<DebouncedButton.h>` is not
among the sources.  The fields are those of the specification's debounced state (previous raw
reading, stable state, last raw change, last stable change) together with the bookkeeping its
behaviour needs: whether the current press has reported `LONG_PRESS`, and the time of the
last single click. -/
structure SpecButton where
  /-- Previous raw reading. -/
  prev_reading : Bool
  /-- Debounced reading; `true` is pressed. -/
  debounced_reading : Bool
  /-- Time of the last raw change. -/
  last_reading_change_tm : Nat
  /-- Time of the last debounced change. -/
  last_stable_change_tm : Nat
  /-- Whether `LONG_PRESS` was reported for the current press. -/
  long_press_reported : Bool
  /-- Time of a click that may still become a double click. -/
  last_click_tm : Option Nat
deriving DecidableEq, Repr

namespace SpecButton

/-- Modelled from the spec: the long-press cutoff `CLICKED_CUTOFF_MS` of the absent
`<DebouncedButton.h>`, 200 ticks in the specification's example. -/
def CLICKED_CUTOFF_MS : Nat := 200

/-- Modelled from the spec: the default-constructed button of the absent
`<DebouncedButton.h>`, released and idle. -/
def init : SpecButton :=
  { prev_reading := false, debounced_reading := false, last_reading_change_tm := 0,
    last_stable_change_tm := 0, long_press_reported := false, last_click_tm := none }

/-- Modelled from the spec: `DebouncedButton::input_pending()` of the absent
`<DebouncedButton.h>`; raw activity is pending while the latest raw reading has not been
committed. -/
def input_pending (b : SpecButton) : Bool := b.prev_reading != b.debounced_reading

/-- Modelled from the spec: `DebouncedButton::state()` of the absent `<DebouncedButton.h>`;
currently pressed, debounced. -/
def state (b : SpecButton) : Bool := b.debounced_reading

/-- Modelled from the spec: `DebouncedButton::duration(now)` of the absent
`<DebouncedButton.h>`; the time since the current debounced state began. -/
def duration (b : SpecButton) (now : Nat) : Nat := sub32 now b.last_stable_change_tm

/-- Modelled from the spec: `DebouncedButton::update(rawReading, now)` of the absent
`<DebouncedButton.h>`, with the switch's 20-tick raw-edge debounce and a double-click window
of `window` ticks.  A debounced press starts the press timer; a debounced release reports
`DOUBLE_CLICK`, `CLICK` or `RELEASE` by press duration and prior click; a press held past
the cutoff reports `LONG_PRESS` once. -/
def update (window : Nat) (b : SpecButton) (reading : Bool) (now : Nat) :
    SpecButton × ButtonInput :=
  if b.prev_reading != reading then
    ({ b with last_reading_change_tm := now, prev_reading := reading }, ButtonInput.NONE)
  else if b.debounced_reading != reading && decide (sub32 now b.last_reading_change_tm > 20) then
    if reading then
      ({ b with debounced_reading := true, last_stable_change_tm := now,
                long_press_reported := false }, ButtonInput.NONE)
    else
      let press_duration := sub32 now b.last_stable_change_tm
      let b1 := { b with debounced_reading := false, last_stable_change_tm := now }
      if press_duration < CLICKED_CUTOFF_MS then
        match b.last_click_tm with
        | some c =>
          if sub32 now c ≤ window then
            ({ b1 with last_click_tm := none }, ButtonInput.DOUBLE_CLICK)
          else
            ({ b1 with last_click_tm := some now }, ButtonInput.CLICK)
        | none => ({ b1 with last_click_tm := some now }, ButtonInput.CLICK)
      else
        (b1, ButtonInput.RELEASE)
  else if b.debounced_reading && !b.long_press_reported &&
      decide (sub32 now b.last_stable_change_tm > CLICKED_CUTOFF_MS) then
    ({ b with long_press_reported := true }, ButtonInput.LONG_PRESS)
  else
    (b, ButtonInput.NONE)

/-- Modelled from the spec: the members of the absent `<DebouncedButton.h>` that the arbiter
calls, for a double-click window of `window` ticks. -/
def ops (window : Nat) : DebouncedButtonOps SpecButton :=
  { CLICKED_CUTOFF_MS := CLICKED_CUTOFF_MS
    init := init
    input_pending := input_pending
    update := update window
    state := state
    duration := duration }

end SpecButton

/-- Driver answers with no flag set: no new sample, no click source, no motion source. -/
def quiet_dev : Lis3dh ℚ :=
  { status_reg := 0, click_src := 0, int1_src := 0, acc_x := 0, acc_y := 0, acc_z := 0 }

/-- Driver answers after a double tap: both double-tap bits of the click source set. -/
def tap_dev : Lis3dh ℚ :=
  { status_reg := 0, click_src := 0x60, int1_src := 0, acc_x := 0, acc_y := 0, acc_z := 0 }

/-- Driver answers with a new sample `(x, 0, 0)` ready. -/
def sample_dev (x : ℚ) : Lis3dh ℚ :=
  { status_reg := 0x08, click_src := 0, int1_src := 0, acc_x := x, acc_y := 0, acc_z := 0 }

/-- The freshly constructed arbiter over exact arithmetic and the modelled buttons (with a
double-click window of 400 ticks). -/
def fresh : CircuitPlaygroundGestures ℚ SpecButton :=
  CircuitPlaygroundGestures.init exact_arith (SpecButton.ops 400)

/-- A poll at time `tm` with the buttons released, the slide switch at `level`, the
accelerometer interrupt flag `irq` and driver answers `dev`. -/
def poll_at (tm : Nat) (level irq : Bool) (dev : Lis3dh ℚ) : Poll ℚ :=
  { tm := tm, slide_switch_level := level, left_button_level := false,
    right_button_level := false, accelerometer_interrupt := irq, dev := dev }

/-- Driver answers with the interrupt's click source equal to `c` and nothing else set. -/
def click_dev (c : Nat) : Lis3dh ℚ :=
  { status_reg := 0, click_src := c, int1_src := 0, acc_x := 0, acc_y := 0, acc_z := 0 }

/-- A poll at time `tm` with the two button levels `left` and `right` (`true` is pressed),
the slide switch low, no accelerometer interrupt and no new sample. -/
def button_poll (tm : Nat) (left right : Bool) : Poll ℚ :=
  { tm := tm, slide_switch_level := false, left_button_level := left,
    right_button_level := right, accelerometer_interrupt := false, dev := quiet_dev }

namespace CircuitPlaygroundGestures

/-- The gesture the specification gives when exactly one button reports the event `e`:
`right_side` tells which button reported, `other_held` whether the other button is held.
`CLICK` gives the side's `*_CLICKED`, or the cross-qualified gesture when the other button is
held; `LONG_PRESS` gives `*_PRESSED`, or `BOTH_PRESSED` when the other is held; `RELEASE`
and `DOUBLE_CLICK` give `*_RELEASED` and `*_DOUBLE_CLICKED`. -/
def single_button_gesture (right_side : Bool) (e : ButtonInput) (other_held : Bool) :
    Gesture :=
  match right_side, e with
  | false, ButtonInput.CLICK =>
    if other_held then Gesture.RIGHT_HELD_LEFT_CLICKED else Gesture.LEFT_CLICKED
  | false, ButtonInput.LONG_PRESS =>
    if other_held then Gesture.BOTH_PRESSED else Gesture.LEFT_PRESSED
  | false, ButtonInput.RELEASE => Gesture.LEFT_RELEASED
  | false, ButtonInput.DOUBLE_CLICK => Gesture.LEFT_DOUBLE_CLICKED
  | true, ButtonInput.CLICK =>
    if other_held then Gesture.LEFT_HELD_RIGHT_CLICKED else Gesture.RIGHT_CLICKED
  | true, ButtonInput.LONG_PRESS =>
    if other_held then Gesture.BOTH_PRESSED else Gesture.RIGHT_PRESSED
  | true, ButtonInput.RELEASE => Gesture.RIGHT_RELEASED
  | true, ButtonInput.DOUBLE_CLICK => Gesture.RIGHT_DOUBLE_CLICKED
  | _, ButtonInput.NONE => Gesture.NONE

/-- Whether the button object `b` counts as held at time `tm`: its debounced state is
pressed and its `duration(tm)` exceeds `CLICKED_CUTOFF_MS`. -/
def held {β : Type} (B : DebouncedButtonOps β) (b : β) (tm : Nat) : Bool :=
  B.state b && decide (B.duration b tm > B.CLICKED_CUTOFF_MS)

end CircuitPlaygroundGestures

/-- The arbiter at the entry of the poll at time 170 of this run from `fresh`: the right
button is clicked (down 0-40, reported at 70), then both buttons go down at 100 and up at
140, and are still up at 170. -/
def click_and_double_click_state : CircuitPlaygroundGestures ℚ SpecButton :=
  CircuitPlaygroundGestures.latch
    (CircuitPlaygroundGestures.run exact_arith (SpecButton.ops 400) fresh
      [button_poll 0 false true, button_poll 30 false true, button_poll 40 false false,
        button_poll 70 false false, button_poll 100 true true, button_poll 130 true true,
        button_poll 140 false false])
    (button_poll 170 false false)

/-- The arbiter at the entry of the poll at time 370 of this run from `fresh`: the right
button goes down at 0 and stays down (long press reported at 250), the left button goes
down at 300, both go up at 340 and are still up at 370. -/
def click_and_release_state : CircuitPlaygroundGestures ℚ SpecButton :=
  CircuitPlaygroundGestures.latch
    (CircuitPlaygroundGestures.run exact_arith (SpecButton.ops 400) fresh
      [button_poll 0 false true, button_poll 30 false true, button_poll 250 false true,
        button_poll 300 true true, button_poll 330 true true, button_poll 340 false false])
    (button_poll 370 false false)

/-- The arbiter at the entry of the poll at time 370 of this run from `fresh`: the right
button goes down at 0 and stays down throughout, the left button goes down at 300 and up
at 340, and is still up at 370. -/
def click_while_held_state : CircuitPlaygroundGestures ℚ SpecButton :=
  CircuitPlaygroundGestures.latch
    (CircuitPlaygroundGestures.run exact_arith (SpecButton.ops 400) fresh
      [button_poll 0 false true, button_poll 30 false true, button_poll 250 false true,
        button_poll 300 true true, button_poll 330 true true, button_poll 340 false true])
    (button_poll 370 false true)

/-! ## Theorems: `DebouncedSwitch` -/

theorem sub32_eq_emod (a b : Nat) :
    ((sub32 a b : Nat) : Int) = ((a : Int) - (b : Int)) % (2 : Int) ^ 32 := by
  unfold sub32
  norm_num
  omega

theorem sub32_of_le {a b : Nat} (hab : b ≤ a) (ha : a < 4294967296) : sub32 a b = a - b := by
  unfold sub32
  omega

namespace DebouncedSwitch

/-- C1: for every switch object, reading and timestamp, `update` equals the reference
algorithm: a raw edge restarts the timer and returns `NONE`; a steady reading that differs
from the debounced one for more than 20 ticks (modulo `2^32`) is committed and reported by
polarity; otherwise nothing changes. -/
theorem update_eq_reference (s : DebouncedSwitch) (reading : Bool) (tm : Nat) :
    s.update reading tm = s.update_reference reading tm := by
  have h := sub32_eq_emod tm s.last_reading_change_tm
  have e : (2 : Int) ^ 32 = 4294967296 := by norm_num
  rw [e] at h
  obtain ⟨pol, deb, prev, last⟩ := s
  simp only [update, update_reference, DEBOUNCE_MS, e] at *
  by_cases h20 : sub32 tm last > 20
  · have h20i : ((tm : Int) - (last : Int)) % 4294967296 > 20 := by omega
    cases pol <;> cases deb <;> cases prev <;> cases reading <;> simp [h20, h20i]
  · have h20i : ¬ ((tm : Int) - (last : Int)) % 4294967296 > 20 := by omega
    cases pol <;> cases deb <;> cases prev <;> cases reading <;> simp [h20, h20i]

/-! ### Case lemmas for `DebouncedSwitch.update` -/

theorem update_edge (s : DebouncedSwitch) (reading : Bool) (tm : Nat)
    (h : s.prev_reading ≠ reading) :
    s.update reading tm =
      (DebouncedSwitch.mk s.on_state s.debounced_reading reading tm, Input.NONE) := by
  simp [update, h]

theorem update_commit (s : DebouncedSwitch) (reading : Bool) (tm : Nat)
    (h1 : s.prev_reading = reading) (h2 : s.debounced_reading ≠ reading)
    (h3 : 20 < sub32 tm s.last_reading_change_tm) :
    s.update reading tm =
      (DebouncedSwitch.mk s.on_state reading s.prev_reading s.last_reading_change_tm,
        if reading = s.on_state then Input.SWITCHED_ON else Input.SWITCHED_OFF) := by
  simp [update, h1, h2, h3, DEBOUNCE_MS]

theorem update_idle (s : DebouncedSwitch) (reading : Bool) (tm : Nat)
    (h1 : s.prev_reading = reading)
    (h2 : s.debounced_reading = reading ∨ sub32 tm s.last_reading_change_tm ≤ 20) :
    s.update reading tm = (s, Input.NONE) := by
  rcases h2 with h2 | h2
  · simp [update, h1, h2]
  · have : ¬ 20 < sub32 tm s.last_reading_change_tm := by omega
    simp [update, h1, this, DEBOUNCE_MS]

theorem update_not_commit (s : DebouncedSwitch) (reading : Bool) (tm : Nat)
    (h1 : s.prev_reading = reading)
    (h2 : ¬ (s.debounced_reading ≠ reading ∧ 20 < sub32 tm s.last_reading_change_tm)) :
    s.update reading tm = (s, Input.NONE) := by
  apply update_idle s reading tm h1
  by_cases hd : s.debounced_reading = reading
  · exact Or.inl hd
  · right
    have h3 : ¬ 20 < sub32 tm s.last_reading_change_tm := fun h3 => h2 ⟨hd, h3⟩
    omega

theorem run_append (s : DebouncedSwitch) (l1 l2 : List (Bool × Nat)) :
    s.run (l1 ++ l2) = (s.run l1).run l2 := by
  induction l1 generalizing s with
  | nil => rfl
  | cons c cs ih => simp [run, ih]

theorem run_snoc (s : DebouncedSwitch) (l : List (Bool × Nat)) (c : Bool × Nat) :
    s.run (l ++ [c]) = ((s.run l).update c.1 c.2).1 := by
  rw [run_append]; rfl

/-- While a raw reading awaits its commit, the timer holds the time of the call that
introduced it and every call since carried the same reading. -/
theorem pending_history (pol : Bool) (l : List (Bool × Nat)) :
    ((init pol).run l).prev_reading ≠ ((init pol).run l).debounced_reading →
    ∃ l1 c0 mid, l = l1 ++ c0 :: mid ∧
      c0.2 = ((init pol).run l).last_reading_change_tm ∧
      c0.1 = ((init pol).run l).prev_reading ∧
      ∀ x ∈ mid, x.1 = ((init pol).run l).prev_reading := by
  induction l using List.reverseRecOn with
  | nil => intro h; exact absurd rfl h
  | append_singleton l c ih =>
    rw [run_snoc]
    generalize (init pol).run l = s at ih ⊢
    intro h
    by_cases he : s.prev_reading = c.1
    · by_cases hc : s.debounced_reading ≠ c.1 ∧ 20 < sub32 c.2 s.last_reading_change_tm
      · rw [update_commit s c.1 c.2 he hc.1 hc.2] at h
        exact absurd he h
      · have hidle := update_not_commit s c.1 c.2 he hc
        rw [hidle] at h ⊢
        obtain ⟨l1, c0, mid, hl, h1, h2, h3⟩ := ih h
        refine ⟨l1, c0, mid ++ [c], by simp [hl], h1, h2, ?_⟩
        intro x hx
        rcases List.mem_append.1 hx with hx | hx
        · exact h3 x hx
        · simp at hx; rw [hx]; exact he.symm
    · rw [update_edge s c.1 c.2 he]
      exact ⟨l, c, [], by simp, rfl, rfl, by simp⟩

/-- C2: in a run of `update` calls from the freshly constructed switch with non-decreasing
timestamps below `2^32`, a call `c` that changes the debounced reading is preceded by a call
`c0` more than 20 ticks earlier such that `c0`, every call between, and `c` itself all
carried the reading that becomes the debounced one. -/
theorem debounced_change_after_stable_window (pol : Bool) (pre : List (Bool × Nat))
    (c : Bool × Nat)
    (hmono : (pre ++ [c]).Pairwise (fun a b => a.2 ≤ b.2))
    (hrange : ∀ x ∈ pre ++ [c], x.2 < 4294967296)
    (hchange : (((init pol).run pre).update c.1 c.2).1.debounced_reading ≠
      ((init pol).run pre).debounced_reading) :
    ∃ l1 c0 mid, pre = l1 ++ c0 :: mid ∧ c0.2 + 20 < c.2 ∧
      ∀ x ∈ c0 :: (mid ++ [c]),
        x.1 = (((init pol).run pre).update c.1 c.2).1.debounced_reading := by
  have hinv := pending_history pol pre
  generalize (init pol).run pre = s at hinv hchange ⊢
  by_cases he : s.prev_reading = c.1
  · by_cases hc : s.debounced_reading ≠ c.1 ∧ 20 < sub32 c.2 s.last_reading_change_tm
    · rw [update_commit s c.1 c.2 he hc.1 hc.2]
      have hpd : s.prev_reading ≠ s.debounced_reading := by
        rw [he]; exact fun h => hc.1 h.symm
      obtain ⟨l1, c0, mid, hl, h1, h2, h3⟩ := hinv hpd
      refine ⟨l1, c0, mid, hl, ?_, ?_⟩
      · have hmem : c0 ∈ pre := by rw [hl]; simp
        have hle : c0.2 ≤ c.2 := by
          rw [List.pairwise_append] at hmono
          exact hmono.2.2 c0 hmem c (by simp)
        have hcr : c.2 < 4294967296 := hrange c (by simp)
        have h20 := hc.2
        rw [← h1, sub32_of_le hle hcr] at h20
        omega
      · intro x hx
        simp only [List.mem_cons, List.mem_append, List.mem_singleton, List.not_mem_nil,
          or_false] at hx
        rcases hx with hx | hx | hx
        · rw [hx, h2, he]
        · rw [h3 x hx, he]
        · rw [hx]
    · have hidle := update_not_commit s c.1 c.2 he hc
      rw [hidle] at hchange
      exact absurd rfl hchange
  · rw [update_edge s c.1 c.2 he] at hchange
    exact absurd rfl hchange

/-- Witness for C2: reading `true` at times 0, 10 and 30 on a fresh switch commits at 30. -/
theorem debounced_change_after_stable_window_witness :
    ∃ l1 c0 mid, [(true, 0), (true, 10)] = l1 ++ c0 :: mid ∧ c0.2 + 20 < (true, 30).2 ∧
      ∀ x ∈ c0 :: (mid ++ [(true, 30)]),
        x.1 = (((init true).run [(true, 0), (true, 10)]).update
          (true, 30).1 (true, 30).2).1.debounced_reading :=
  debounced_change_after_stable_window true [(true, 0), (true, 10)] (true, 30)
    (by decide) (by decide) (by decide)

/-- Once the debounced reading equals the raw one, further calls with that reading return
`NONE`. -/
theorem outputs_settled (s : DebouncedSwitch) (r : Bool) (ts : List Nat)
    (h1 : s.prev_reading = r) (h2 : s.debounced_reading = r) :
    s.outputs (ts.map (fun t => (r, t))) = List.replicate ts.length Input.NONE := by
  induction ts with
  | nil => rfl
  | cons t ts ih =>
    simp only [List.map_cons, outputs, List.length_cons, List.replicate_succ]
    rw [update_idle s r t h1 (Or.inl h2)]
    simpa using ih

/-- A pending reading `r`, introduced at `t0`, is committed by the first later call more
than 20 ticks after `t0`, and by no other call. -/
theorem outputs_pending (s : DebouncedSwitch) (r : Bool) (ts : List Nat)
    (h1 : s.prev_reading = r) (h2 : s.debounced_reading ≠ r)
    (hrange : ∀ t ∈ ts, s.last_reading_change_tm ≤ t ∧ t < 4294967296)
    (hex : ∃ t ∈ ts, s.last_reading_change_tm + 20 < t) :
    ∃ early tk late, ts = early ++ tk :: late ∧
      (∀ t ∈ early, t ≤ s.last_reading_change_tm + 20) ∧
      s.last_reading_change_tm + 20 < tk ∧
      s.outputs (ts.map (fun t => (r, t))) =
        List.replicate early.length Input.NONE ++
          (if r = s.on_state then Input.SWITCHED_ON else Input.SWITCHED_OFF) ::
            List.replicate late.length Input.NONE := by
  induction ts with
  | nil => obtain ⟨t, ht, _⟩ := hex; simp at ht
  | cons t ts ih =>
    have ht := hrange t (by simp)
    have hsub : sub32 t s.last_reading_change_tm = t - s.last_reading_change_tm :=
      sub32_of_le ht.1 ht.2
    by_cases h20 : s.last_reading_change_tm + 20 < t
    · refine ⟨[], t, ts, rfl, by simp, h20, ?_⟩
      simp only [List.map_cons, outputs, List.length_nil, List.replicate_zero, List.nil_append]
      rw [update_commit s r t h1 h2 (by omega)]
      simp only
      rw [outputs_settled (DebouncedSwitch.mk s.on_state r s.prev_reading
        s.last_reading_change_tm) r ts h1 rfl]
    · have hex2 : ∃ u ∈ ts, s.last_reading_change_tm + 20 < u := by
        obtain ⟨u, hu, hu20⟩ := hex
        rcases List.mem_cons.1 hu with hu | hu
        · exact absurd (hu ▸ hu20) h20
        · exact ⟨u, hu, hu20⟩
      obtain ⟨early, tk, late, hts, he, hk, hout⟩ :=
        ih (fun u hu => hrange u (List.mem_cons_of_mem _ hu)) hex2
      refine ⟨t :: early, tk, late, by simp [hts], ?_, hk, ?_⟩
      · intro u hu
        rcases List.mem_cons.1 hu with hu | hu
        · omega
        · exact he u hu
      · simp only [List.map_cons, outputs, List.length_cons, List.replicate_succ,
          List.cons_append]
        rw [update_idle s r t h1 (Or.inr (by omega))]
        simp only
        rw [hout]

/-- C3: from a settled switch (previous raw reading = debounced reading = `b`), a run of
calls that all pass `!b` at strictly increasing times `t0 < ... < tn` below `2^32` with
`tn - t0 > 20` returns exactly one event, at the first call whose time exceeds `t0 + 20`;
every call before and after it returns `NONE`. -/
theorem single_edge_single_event (s : DebouncedSwitch) (b : Bool) (t0 tn : Nat)
    (rest : List Nat)
    (hprev : s.prev_reading = b) (hdeb : s.debounced_reading = b)
    (hsorted : (t0 :: rest).Pairwise (fun a c => a < c))
    (hrange : ∀ t ∈ t0 :: rest, t < 4294967296)
    (hlast : (t0 :: rest).getLast? = some tn) (hlong : t0 + 20 < tn) :
    ∃ early tk late, t0 :: rest = early ++ tk :: late ∧
      (∀ t ∈ early, t ≤ t0 + 20) ∧ t0 + 20 < tk ∧
      s.outputs ((t0 :: rest).map (fun t => (!b, t))) =
        List.replicate early.length Input.NONE ++
          (if (!b) = s.on_state then Input.SWITCHED_ON else Input.SWITCHED_OFF) ::
            List.replicate late.length Input.NONE := by
  have hedge : s.prev_reading ≠ !b := by rw [hprev]; cases b <;> simp
  have hmem : tn ∈ t0 :: rest := List.mem_of_getLast?_eq_some hlast
  have hrest : tn ∈ rest := by
    rcases List.mem_cons.1 hmem with h | h
    · omega
    · exact h
  have hgt : ∀ t ∈ rest, t0 < t := (List.pairwise_cons.1 hsorted).1
  have ht0 := hrange t0 (by simp)
  obtain ⟨early, tk, late, hts, he, hk, hout⟩ :=
    outputs_pending (DebouncedSwitch.mk s.on_state s.debounced_reading (!b) t0) (!b) rest rfl
      (by show s.debounced_reading ≠ !b; rw [hdeb]; cases b <;> simp)
      (fun t ht => ⟨le_of_lt (hgt t ht), hrange t (List.mem_cons_of_mem _ ht)⟩)
      ⟨tn, hrest, hlong⟩
  refine ⟨t0 :: early, tk, late, by simp [hts], ?_, hk, ?_⟩
  · intro u hu
    rcases List.mem_cons.1 hu with hu | hu
    · omega
    · exact he u hu
  · simp only [List.map_cons, outputs, List.length_cons, List.replicate_succ, List.cons_append]
    rw [update_edge s (!b) t0 hedge]
    simp only
    rw [hout]

/-- Witness for C3: a fresh switch fed `true` at times 5, 15, 26, 40. -/
theorem single_edge_single_event_witness :
    ∃ early tk late, 5 :: [15, 26, 40] = early ++ tk :: late ∧
      (∀ t ∈ early, t ≤ 5 + 20) ∧ 5 + 20 < tk ∧
      (init true).outputs ((5 :: [15, 26, 40]).map (fun t => (!false, t))) =
        List.replicate early.length Input.NONE ++
          (if (!false) = (init true).on_state then Input.SWITCHED_ON
            else Input.SWITCHED_OFF) ::
            List.replicate late.length Input.NONE :=
  single_edge_single_event (init true) false 5 40 [15, 26, 40] rfl rfl
    (by decide) (by decide) rfl (by decide)

/-- C4, counterexample: a fresh switch fed the reading `true` every 7 ticks (a fixed
interval below the 20-tick window), at times 0, 7, 14, 21, returns `SWITCHED_ON` at the
fourth call and its debounced reading changes. -/
theorem fixed_interval_counterexample :
    (init true).outputs [(true, 0 * 7), (true, 1 * 7), (true, 2 * 7), (true, 3 * 7)] =
        [Input.NONE, Input.NONE, Input.NONE, Input.SWITCHED_ON] ∧
      ((init true).run
        [(true, 0 * 7), (true, 1 * 7), (true, 2 * 7), (true, 3 * 7)]).debounced_reading ≠
        (init true).debounced_reading := by
  decide

/-- Runs of calls on a switch whose debounced reading is `b`, in which no stretch of
consecutive `!b` readings spans more than 20 ticks: nothing is returned or committed. -/
theorem quiet_of_short_runs (b : Bool) (calls : List (Bool × Nat)) (s : DebouncedSwitch)
    (hdeb : s.debounced_reading = b)
    (hmono : calls.Pairwise (fun a c => a.2 ≤ c.2))
    (hrange : ∀ x ∈ calls, x.2 < 4294967296)
    (hshort : ∀ l1 c0 mid c1 l2, calls = l1 ++ c0 :: (mid ++ c1 :: l2) →
      c0.1 ≠ b → (∀ x ∈ mid, x.1 ≠ b) → c1.1 ≠ b → c1.2 ≤ c0.2 + 20)
    (hpend : s.prev_reading ≠ b → ∀ mid c1 l2, calls = mid ++ c1 :: l2 →
      (∀ x ∈ mid, x.1 ≠ b) → c1.1 ≠ b →
      s.last_reading_change_tm ≤ c1.2 ∧ c1.2 ≤ s.last_reading_change_tm + 20) :
    (∀ o ∈ s.outputs calls, o = Input.NONE) ∧
      ∀ pre post, calls = pre ++ post → (s.run pre).debounced_reading = b := by
  induction calls generalizing s with
  | nil =>
    refine ⟨by simp [outputs], ?_⟩
    intro pre post h
    have : pre = [] := by
      cases pre with
      | nil => rfl
      | cons a l => simp at h
    rw [this]; exact hdeb
  | cons c cs ih =>
    have hshort2 : ∀ l1 c0 mid c1 l2, cs = l1 ++ c0 :: (mid ++ c1 :: l2) →
        c0.1 ≠ b → (∀ x ∈ mid, x.1 ≠ b) → c1.1 ≠ b → c1.2 ≤ c0.2 + 20 := by
      intro l1 c0 mid c1 l2 h
      exact hshort (c :: l1) c0 mid c1 l2 (by simp [h])
    have hmono2 := (List.pairwise_cons.1 hmono).2
    have hrange2 : ∀ x ∈ cs, x.2 < 4294967296 := fun x hx =>
      hrange x (List.mem_cons_of_mem _ hx)
    -- the call `c` returns `NONE`, keeps the debounced reading, and re-establishes `hpend`
    have key : (s.update c.1 c.2).2 = Input.NONE ∧
        (s.update c.1 c.2).1.debounced_reading = b ∧
        ((s.update c.1 c.2).1.prev_reading ≠ b → ∀ mid c1 l2, cs = mid ++ c1 :: l2 →
          (∀ x ∈ mid, x.1 ≠ b) → c1.1 ≠ b →
          (s.update c.1 c.2).1.last_reading_change_tm ≤ c1.2 ∧
            c1.2 ≤ (s.update c.1 c.2).1.last_reading_change_tm + 20) := by
      by_cases he : s.prev_reading = c.1
      · by_cases hcb : c.1 = b
        · rw [update_idle s c.1 c.2 he (Or.inl (by rw [hdeb, hcb]))]
          refine ⟨rfl, hdeb, ?_⟩
          intro hp
          exact absurd (he.trans hcb) hp
        · have hp : s.prev_reading ≠ b := by rw [he]; exact hcb
          have h0 := hpend hp [] c cs rfl (by simp) hcb
          have hcr := hrange c (by simp)
          have hsub := sub32_of_le h0.1 hcr
          rw [update_idle s c.1 c.2 he (Or.inr (by omega))]
          refine ⟨rfl, hdeb, ?_⟩
          intro _ mid c1 l2 h hm hc1
          refine hpend hp (c :: mid) c1 l2 (by simp [h]) ?_ hc1
          intro x hx
          rcases List.mem_cons.1 hx with hx | hx
          · rw [hx]; exact hcb
          · exact hm x hx
      · rw [update_edge s c.1 c.2 he]
        refine ⟨rfl, hdeb, ?_⟩
        intro hp mid c1 l2 h hm hc1
        have hmem : c1 ∈ cs := by rw [h]; simp
        exact ⟨(List.pairwise_cons.1 hmono).1 c1 hmem,
          hshort [] c mid c1 l2 (by simp [h]) hp hm hc1⟩
    obtain ⟨k1, k2, k3⟩ := key
    obtain ⟨i1, i2⟩ := ih (s.update c.1 c.2).1 k2 hmono2 hrange2 hshort2 k3
    constructor
    · intro o ho
      simp only [outputs, List.mem_cons] at ho
      rcases ho with ho | ho
      · rw [ho, k1]
      · exact i1 o ho
    · intro pre post h
      cases pre with
      | nil => exact hdeb
      | cons a l =>
        simp only [List.cons_append, List.cons.injEq] at h
        obtain ⟨rfl, h⟩ := h
        exact i2 l post h

/-- C4, amended: from a switch whose previous raw reading and debounced reading are both
`b`, fed readings at non-decreasing times below `2^32` (at a fixed tick interval in
particular) such that no stretch of consecutive calls carrying `!b` spans more than 20
ticks, every call returns `NONE` and the debounced reading stays `b` throughout. -/
theorem short_runs_never_commit (s : DebouncedSwitch) (b : Bool) (calls : List (Bool × Nat))
    (hprev : s.prev_reading = b) (hdeb : s.debounced_reading = b)
    (hmono : calls.Pairwise (fun a c => a.2 ≤ c.2))
    (hrange : ∀ x ∈ calls, x.2 < 4294967296)
    (hshort : ∀ l1 c0 mid c1 l2, calls = l1 ++ c0 :: (mid ++ c1 :: l2) →
      c0.1 ≠ b → (∀ x ∈ mid, x.1 ≠ b) → c1.1 ≠ b → c1.2 ≤ c0.2 + 20) :
    (∀ o ∈ s.outputs calls, o = Input.NONE) ∧
      ∀ pre post, calls = pre ++ post → (s.run pre).debounced_reading = b :=
  quiet_of_short_runs b calls s hdeb hmono hrange hshort (fun hp => absurd hprev hp)

/-- Witness for C4 (amended): a fresh switch polled every 7 ticks sees `true` at 0, 7, 14
and `false` again at 21. -/
theorem short_runs_never_commit_witness :
    (∀ o ∈ (init true).outputs [(true, 0), (true, 7), (true, 14), (false, 21)],
        o = Input.NONE) ∧
      ∀ pre post, [(true, 0), (true, 7), (true, 14), (false, 21)] = pre ++ post →
        ((init true).run pre).debounced_reading = false :=
  short_runs_never_commit (init true) false [(true, 0), (true, 7), (true, 14), (false, 21)]
    rfl rfl (by decide) (by decide)
    (by
      intro l1 c0 mid c1 l2 h _ _ h1
      have hmem : c0 ∈ [(true, 0), (true, 7), (true, 14), (false, 21)] := by rw [h]; simp
      have hmem1 : c1 ∈ [(true, 0), (true, 7), (true, 14), (false, 21)] := by rw [h]; simp
      simp only [List.mem_cons, List.mem_singleton, List.not_mem_nil, or_false] at hmem hmem1
      rcases hmem1 with rfl | rfl | rfl | rfl
      · omega
      · omega
      · omega
      · exact absurd rfl h1)

end DebouncedSwitch

theorem sub32_add_mod (t0 d : Nat) (hd : d < 4294967296) :
    sub32 ((t0 + d) % 4294967296) t0 = d := by
  unfold sub32
  omega

namespace DebouncedSwitch

/-- C5: a raw edge to `reading` is recorded by a call at time `t0` while the debounced
reading differs from it.  The next call passes the same reading after a true elapsed time
`d < 2^32`, i.e. at the timestamp `(t0 + d) mod 2^32`.  That call commits the transition
(returns an event and sets the debounced reading) if and only if `d > 20`, also when
`t0 + d` overflows 32 bits. -/
theorem elapsed_time_across_overflow (s0 : DebouncedSwitch) (reading : Bool) (t0 d : Nat)
    (hedge : s0.prev_reading ≠ reading) (hdiff : s0.debounced_reading ≠ reading)
    (hd : d < 4294967296) :
    (((s0.update reading t0).1.update reading ((t0 + d) % 4294967296)).2 ≠ Input.NONE
        ↔ 20 < d) ∧
      (((s0.update reading t0).1.update reading
        ((t0 + d) % 4294967296)).1.debounced_reading = reading ↔ 20 < d) := by
  rw [update_edge s0 reading t0 hedge]
  have hsub := sub32_add_mod t0 d hd
  generalize hs1 : DebouncedSwitch.mk s0.on_state s0.debounced_reading reading t0 = s1
  have hp : s1.prev_reading = reading := by rw [← hs1]
  have hdb : s1.debounced_reading ≠ reading := by rw [← hs1]; exact hdiff
  have hl : s1.last_reading_change_tm = t0 := by rw [← hs1]
  by_cases h20 : 20 < d
  · rw [update_commit s1 reading _ hp hdb (by rw [hl]; omega)]
    refine ⟨⟨fun _ => h20, fun _ => ?_⟩, ⟨fun _ => h20, fun _ => rfl⟩⟩
    simp only
    split <;> simp
  · rw [update_idle s1 reading _ hp (Or.inr (by rw [hl]; omega))]
    exact ⟨⟨fun h => absurd rfl h, fun h => absurd h h20⟩,
      ⟨fun h => absurd h hdb, fun h => absurd h h20⟩⟩

/-- Witness for C5: an edge recorded at `2^32 - 5`, next call 30 ticks later at timestamp
`25` after the counter wrapped. -/
theorem elapsed_time_across_overflow_witness :
    ((((init true).update true 4294967291).1.update true
          ((4294967291 + 30) % 4294967296)).2 ≠ Input.NONE ↔ 20 < 30) ∧
      ((((init true).update true 4294967291).1.update true
        ((4294967291 + 30) % 4294967296)).1.debounced_reading = true ↔ 20 < 30) :=
  elapsed_time_across_overflow (init true) true 4294967291 30
    (by decide) (by decide) (by decide)

end DebouncedSwitch

/-! ## Theorems: `CircuitPlaygroundGestures` -/

namespace CircuitPlaygroundGestures

set_option maxRecDepth 1000000 in
theorem orientation_byte_table : ∀ b < 256,
    orientation_for_int1_src b = first_set_orientation b ∧
      (orientation_for_int1_src b = Orientation.UNKNOWN_ORIENTATION ↔ b % 64 = 0) ∧
      orientation_for_int1_src b = orientation_for_int1_src (b % 64) := by
  decide

/-- C6: for every byte, `orientation_for_int1_src` returns the orientation of the first set
bit in the priority order `0x20` (Z_UP), `0x10` (Z_DOWN), `0x08` (Y_UP), `0x04` (Y_DOWN),
`0x02` (X_UP), `0x01` (X_DOWN); the result is `UNKNOWN_ORIENTATION` exactly when none of the
low six bits is set; clearing bits `0x40` and `0x80` never changes the result; and `0x20`,
`0x01`, `0x00` map to `Z_UP`, `X_DOWN`, `UNKNOWN_ORIENTATION`. -/
theorem orientation_for_int1_src_priority (b : Nat) (hb : b < 256) :
    orientation_for_int1_src b = first_set_orientation b ∧
      (orientation_for_int1_src b = Orientation.UNKNOWN_ORIENTATION ↔ b % 64 = 0) ∧
      orientation_for_int1_src b = orientation_for_int1_src (b % 64) ∧
      orientation_for_int1_src 0x20 = Orientation.Z_UP ∧
      orientation_for_int1_src 0x01 = Orientation.X_DOWN ∧
      orientation_for_int1_src 0x00 = Orientation.UNKNOWN_ORIENTATION := by
  obtain ⟨h1, h2, h3⟩ := orientation_byte_table b hb
  exact ⟨h1, h2, h3, by decide, by decide, by decide⟩

/-- Witness for C6: the byte `0xB0` (bits `0x80`, `0x20`, `0x10`) decodes as `0x30` does. -/
theorem orientation_for_int1_src_priority_witness :
    orientation_for_int1_src 0xB0 = first_set_orientation 0xB0 ∧
      (orientation_for_int1_src 0xB0 = Orientation.UNKNOWN_ORIENTATION ↔ 0xB0 % 64 = 0) ∧
      orientation_for_int1_src 0xB0 = orientation_for_int1_src (0xB0 % 64) ∧
      orientation_for_int1_src 0x20 = Orientation.Z_UP ∧
      orientation_for_int1_src 0x01 = Orientation.X_DOWN ∧
      orientation_for_int1_src 0x00 = Orientation.UNKNOWN_ORIENTATION :=
  orientation_for_int1_src_priority 0xB0 (by decide)

/-! ### Frame and case lemmas for `update` -/

theorem button_gesture_ne (l r : ButtonInput) (lh rh : Bool) :
    button_gesture l r lh rh ≠ Gesture.DOUBLE_TAPPED ∧
      button_gesture l r lh rh ≠ Gesture.SHAKEN ∧
      button_gesture l r lh rh ≠ Gesture.ORIENTATION_CHANGED := by
  cases l <;> cases r <;> cases lh <;> cases rh <;> decide

variable {F β : Type}

theorem update_inputs_gesture (B : DebouncedButtonOps β) (s : CircuitPlaygroundGestures F β)
    (tm : Nat) :
    (update_inputs B s tm).2 ≠ Gesture.DOUBLE_TAPPED ∧
      (update_inputs B s tm).2 ≠ Gesture.SHAKEN ∧
      (update_inputs B s tm).2 ≠ Gesture.ORIENTATION_CHANGED := by
  unfold update_inputs
  simp only
  split_ifs <;> simp [button_gesture_ne]

theorem update_inputs_frame (B : DebouncedButtonOps β) (s : CircuitPlaygroundGestures F β)
    (tm : Nat) :
    (update_inputs B s tm).1.accelerometer_interrupted = s.accelerometer_interrupted ∧
      (update_inputs B s tm).1.shake_reset_start_tm = s.shake_reset_start_tm ∧
      (update_inputs B s tm).1.orientation = s.orientation ∧
      (update_inputs B s tm).1.acceleration = s.acceleration ∧
      ((update_inputs B s tm).1.tap_ignore_start_tm = s.tap_ignore_start_tm ∨
        (update_inputs B s tm).1.tap_ignore_start_tm = tm) := by
  unfold update_inputs
  simp only
  split_ifs <;> simp

theorem update_orientation_frame (s : CircuitPlaygroundGestures F β) (dev : Lis3dh F) :
    (update_orientation s dev).2 ≠ some Gesture.DOUBLE_TAPPED ∧
      (update_orientation s dev).2 ≠ some Gesture.SHAKEN ∧
      (update_orientation s dev).1.accelerometer_interrupted = s.accelerometer_interrupted ∧
      (update_orientation s dev).1.shake_reset_start_tm = s.shake_reset_start_tm ∧
      (update_orientation s dev).1.tap_ignore_start_tm = s.tap_ignore_start_tm ∧
      (update_orientation s dev).1.slide_switch = s.slide_switch ∧
      (update_orientation s dev).1.slide_switch_reading = s.slide_switch_reading ∧
      (update_orientation s dev).1.left_button = s.left_button ∧
      (update_orientation s dev).1.right_button = s.right_button ∧
      (update_orientation s dev).1.left_button_reading = s.left_button_reading ∧
      (update_orientation s dev).1.right_button_reading = s.right_button_reading := by
  unfold update_orientation
  simp only
  split_ifs <;> simp

/-- The call ends with the result of the accelerometer part, or continues with lines
164-223 on the object the accelerometer part leaves. -/
theorem update_eq_of_none (A : FloatOps F) (B : DebouncedButtonOps β)
    (s : CircuitPlaygroundGestures F β) (dev : Lis3dh F) (tm : Nat)
    (h : (update_accelerometer A s dev tm).2 = none) :
    update A B s dev tm = update_inputs B (update_accelerometer A s dev tm).1 tm := by
  unfold update
  generalize update_accelerometer A s dev tm = r at h ⊢
  obtain ⟨s1, g⟩ := r
  simp only at h
  subst h
  rfl

theorem update_eq_of_some (A : FloatOps F) (B : DebouncedButtonOps β)
    (s : CircuitPlaygroundGestures F β) (dev : Lis3dh F) (tm : Nat) (g : Gesture)
    (h : (update_accelerometer A s dev tm).2 = some g) :
    update A B s dev tm = ((update_accelerometer A s dev tm).1, g) := by
  unfold update
  generalize update_accelerometer A s dev tm = r at h ⊢
  obtain ⟨s1, g1⟩ := r
  simp only at h
  subst h
  rfl

theorem update_accelerometer_frame (A : FloatOps F) (s : CircuitPlaygroundGestures F β)
    (dev : Lis3dh F) (tm : Nat) :
    (update_accelerometer A s dev tm).1.accelerometer_interrupted = false ∧
      (update_accelerometer A s dev tm).1.slide_switch = s.slide_switch ∧
      (update_accelerometer A s dev tm).1.slide_switch_reading = s.slide_switch_reading ∧
      (update_accelerometer A s dev tm).1.left_button = s.left_button ∧
      (update_accelerometer A s dev tm).1.right_button = s.right_button ∧
      (update_accelerometer A s dev tm).1.left_button_reading = s.left_button_reading ∧
      (update_accelerometer A s dev tm).1.right_button_reading = s.right_button_reading := by
  unfold update_accelerometer
  have ho := update_orientation_frame
    ({ s with accelerometer_interrupted := false } : CircuitPlaygroundGestures F β) dev
  obtain ⟨-, -, h3, -, -, h6, h7, h8, h9, h10, h11⟩ := ho
  cases hi : s.accelerometer_interrupted
  · simp only [Bool.false_eq_true, if_false]
    split_ifs <;> simp [hi]
  · simp only [if_true]
    split_ifs <;> simp [h3, h6, h7, h8, h9, h10, h11]

theorem update_accelerometer_tapped (A : FloatOps F) (s : CircuitPlaygroundGestures F β)
    (dev : Lis3dh F) (tm : Nat)
    (h : (update_accelerometer A s dev tm).2 = some Gesture.DOUBLE_TAPPED) :
    s.accelerometer_interrupted = true ∧ dev.click_src &&& 0x60 ≠ 0 ∧
      TAP_IGNORE_MS < sub32 tm s.tap_ignore_start_tm := by
  unfold update_accelerometer at h
  have ho := (update_orientation_frame
    ({ s with accelerometer_interrupted := false } : CircuitPlaygroundGestures F β) dev).1
  cases hi : s.accelerometer_interrupted
  · rw [hi] at h
    simp only [Bool.false_eq_true, if_false] at h
    split_ifs at h <;> simp at h
  · rw [hi] at h
    simp only [if_true] at h
    split_ifs at h with h1 h2
    · exact ⟨rfl, h1, h2⟩
    · exact absurd h ho
    · exact absurd h ho

/-- With the interrupt pending and the tap suppressed or not decoded, the accelerometer part
is the orientation part on the object with the flag cleared. -/
theorem update_accelerometer_no_tap (A : FloatOps F) (s : CircuitPlaygroundGestures F β)
    (dev : Lis3dh F) (tm : Nat) (hi : s.accelerometer_interrupted = true)
    (h : dev.click_src &&& 0x60 = 0 ∨ sub32 tm s.tap_ignore_start_tm ≤ TAP_IGNORE_MS) :
    update_accelerometer A s dev tm =
      update_orientation { s with accelerometer_interrupted := false } dev := by
  unfold update_accelerometer
  rw [hi]
  simp only [if_true]
  rcases h with h | h
  · simp [h]
  · have h2 : ¬ sub32 tm s.tap_ignore_start_tm > TAP_IGNORE_MS := by omega
    simp [h2]

theorem update_double_tapped (A : FloatOps F) (B : DebouncedButtonOps β)
    (s : CircuitPlaygroundGestures F β) (dev : Lis3dh F) (tm : Nat)
    (h : (update A B s dev tm).2 = Gesture.DOUBLE_TAPPED) :
    s.accelerometer_interrupted = true ∧ dev.click_src &&& 0x60 ≠ 0 ∧
      250 < sub32 tm s.tap_ignore_start_tm := by
  cases hg : (update_accelerometer A s dev tm).2 with
  | none =>
    rw [update_eq_of_none A B s dev tm hg] at h
    exact absurd h (update_inputs_gesture B _ tm).1
  | some g =>
    rw [update_eq_of_some A B s dev tm g hg] at h
    simp only at h
    subst h
    exact update_accelerometer_tapped A s dev tm hg

/-- C7: `update(tm)` returns `DOUBLE_TAPPED` only if the interrupt flag was pending at entry,
the click-source test `click_src & 0x60` succeeded and `(tm - tapSuppress) mod 2^32 > 250`.
When the flag is pending and the click-source test succeeds but the difference is at most
250, the call clears the flag, does not return `DOUBLE_TAPPED`, and is the rest of the
function (orientation part, then switch and buttons) run on the object with the flag
cleared: the same call as with no click-source bit set. -/
theorem double_tap_gated (A : FloatOps F) (B : DebouncedButtonOps β)
    (s : CircuitPlaygroundGestures F β) (dev : Lis3dh F) (tm : Nat) :
    ((update A B s dev tm).2 = Gesture.DOUBLE_TAPPED →
        s.accelerometer_interrupted = true ∧ dev.click_src &&& 0x60 ≠ 0 ∧
          250 < sub32 tm s.tap_ignore_start_tm) ∧
      (s.accelerometer_interrupted = true → dev.click_src &&& 0x60 ≠ 0 →
        sub32 tm s.tap_ignore_start_tm ≤ 250 →
        (update A B s dev tm).1.accelerometer_interrupted = false ∧
          (update A B s dev tm).2 ≠ Gesture.DOUBLE_TAPPED ∧
          update A B s dev tm =
            (match update_orientation { s with accelerometer_interrupted := false } dev with
              | (s1, some g) => (s1, g)
              | (s1, none) => update_inputs B s1 tm) ∧
          update A B s dev tm = update A B s { dev with click_src := 0 } tm) := by
  have hfirst := update_double_tapped A B s dev tm
  refine ⟨hfirst, ?_⟩
  intro hi hc hsup
  have e1 := update_accelerometer_no_tap A s dev tm hi (Or.inr hsup)
  have e2 := update_accelerometer_no_tap A s { dev with click_src := 0 } tm hi
    (Or.inl (by simp))
  have hu : update A B s dev tm =
      (match update_orientation { s with accelerometer_interrupted := false } dev with
        | (s1, some g) => (s1, g)
        | (s1, none) => update_inputs B s1 tm) := by
    unfold update
    rw [e1]
  have hu0 : update A B s { dev with click_src := 0 } tm =
      (match update_orientation { s with accelerometer_interrupted := false } dev with
        | (s1, some g) => (s1, g)
        | (s1, none) => update_inputs B s1 tm) := by
    unfold update
    rw [e2]
    rfl
  refine ⟨?_, ?_, hu, hu.trans hu0.symm⟩
  · cases hg : (update_accelerometer A s dev tm).2 with
    | none =>
      rw [update_eq_of_none A B s dev tm hg, (update_inputs_frame B _ tm).1]
      exact (update_accelerometer_frame A s dev tm).1
    | some g =>
      rw [update_eq_of_some A B s dev tm g hg]
      exact (update_accelerometer_frame A s dev tm).1
  · intro h
    have := (hfirst h).2.2
    omega

/-- Witness for C7: a fresh arbiter with the interrupt pending, a double tap decoded, at time
100 (within 250 ticks of the initial suppression timestamp 0). -/
theorem double_tap_gated_witness :
    (latch fresh (poll_at 100 false true tap_dev)).accelerometer_interrupted = true ∧
      tap_dev.click_src &&& 0x60 ≠ 0 ∧
      sub32 100 (latch fresh (poll_at 100 false true tap_dev)).tap_ignore_start_tm ≤ 250 ∧
      (update exact_arith (SpecButton.ops 400) (latch fresh (poll_at 100 false true tap_dev))
        tap_dev 100).1.accelerometer_interrupted = false ∧
      (update exact_arith (SpecButton.ops 400) (latch fresh (poll_at 100 false true tap_dev))
        tap_dev 100).2 ≠ Gesture.DOUBLE_TAPPED :=
  ⟨by decide, by decide, by decide,
    ((double_tap_gated exact_arith (SpecButton.ops 400)
      (latch fresh (poll_at 100 false true tap_dev)) tap_dev 100).2
        (by decide) (by decide) (by decide)).1,
    ((double_tap_gated exact_arith (SpecButton.ops 400)
      (latch fresh (poll_at 100 false true tap_dev)) tap_dev 100).2
        (by decide) (by decide) (by decide)).2.1⟩

end CircuitPlaygroundGestures

theorem sub32_mod_of_le {t T : Nat} (h1 : T ≤ t) (h2 : t < T + 4294967296) :
    sub32 (t % 4294967296) (T % 4294967296) = t - T := by
  unfold sub32
  omega

namespace CircuitPlaygroundGestures

variable {F β : Type}

theorem update_accelerometer_shake (A : FloatOps F) (s : CircuitPlaygroundGestures F β)
    (dev : Lis3dh F) (tm : Nat) :
    ((update_accelerometer A s dev tm).2 = some Gesture.SHAKEN →
        SHAKE_RESET_MS ≤ sub32 tm s.shake_reset_start_tm ∧
          (update_accelerometer A s dev tm).1.shake_reset_start_tm = tm) ∧
      ((update_accelerometer A s dev tm).1.shake_reset_start_tm = s.shake_reset_start_tm ∨
        (update_accelerometer A s dev tm).1.shake_reset_start_tm = tm) := by
  unfold update_accelerometer
  have ho := update_orientation_frame
    ({ s with accelerometer_interrupted := false } : CircuitPlaygroundGestures F β) dev
  obtain ⟨-, h2, -, h4, -⟩ := ho
  cases hi : s.accelerometer_interrupted
  · simp only [Bool.false_eq_true, if_false]
    split_ifs <;> simp_all
  · simp only [if_true]
    split_ifs <;> simp [h2, h4]

theorem update_accelerometer_tap (A : FloatOps F) (s : CircuitPlaygroundGestures F β)
    (dev : Lis3dh F) (tm : Nat) :
    ((update_accelerometer A s dev tm).1.tap_ignore_start_tm = s.tap_ignore_start_tm ∨
        (update_accelerometer A s dev tm).1.tap_ignore_start_tm = tm) ∧
      (sample_over_tap_threshold A s dev →
        (update_accelerometer A s dev tm).1.tap_ignore_start_tm = tm) := by
  unfold update_accelerometer sample_over_tap_threshold
  have ho := update_orientation_frame
    ({ s with accelerometer_interrupted := false } : CircuitPlaygroundGestures F β) dev
  obtain ⟨-, -, -, -, h5, -⟩ := ho
  cases hi : s.accelerometer_interrupted
  · simp only [Bool.false_eq_true, if_false]
    split_ifs <;> simp_all
  · simp only [if_true]
    split_ifs <;> simp [h5]

theorem update_inputs_tap_of_activity (B : DebouncedButtonOps β)
    (s : CircuitPlaygroundGestures F β) (tm : Nat)
    (h : B.input_pending s.left_button = true ∨ B.input_pending s.right_button = true ∨
      (s.slide_switch.update s.slide_switch_reading tm).2 ≠ DebouncedSwitch.Input.NONE ∨
      (B.update s.left_button s.left_button_reading tm).2 ≠ ButtonInput.NONE ∨
      (B.update s.right_button s.right_button_reading tm).2 ≠ ButtonInput.NONE) :
    (update_inputs B s tm).1.tap_ignore_start_tm = tm := by
  unfold update_inputs
  simp only
  split_ifs <;> simp_all

/-- The shake timestamp after `update(tm)`. -/
theorem update_shake (A : FloatOps F) (B : DebouncedButtonOps β)
    (s : CircuitPlaygroundGestures F β) (dev : Lis3dh F) (tm : Nat) :
    ((update A B s dev tm).2 = Gesture.SHAKEN →
        500 ≤ sub32 tm s.shake_reset_start_tm ∧
          (update A B s dev tm).1.shake_reset_start_tm = tm) ∧
      ((update A B s dev tm).1.shake_reset_start_tm = s.shake_reset_start_tm ∨
        (update A B s dev tm).1.shake_reset_start_tm = tm) := by
  have hs := update_accelerometer_shake A s dev tm
  cases hg : (update_accelerometer A s dev tm).2 with
  | none =>
    rw [update_eq_of_none A B s dev tm hg, (update_inputs_frame B _ tm).2.1]
    exact ⟨fun h => absurd h (update_inputs_gesture B _ tm).2.1, hs.2⟩
  | some g =>
    rw [update_eq_of_some A B s dev tm g hg]
    refine ⟨?_, hs.2⟩
    intro h
    simp only at h
    subst h
    exact hs.1 hg

/-- The tap-suppression timestamp after `update(tm)`. -/
theorem update_tap (A : FloatOps F) (B : DebouncedButtonOps β)
    (s : CircuitPlaygroundGestures F β) (dev : Lis3dh F) (tm : Nat) :
    ((update A B s dev tm).1.tap_ignore_start_tm = s.tap_ignore_start_tm ∨
        (update A B s dev tm).1.tap_ignore_start_tm = tm) ∧
      (sample_over_tap_threshold A s dev ∨ input_activity A B s dev tm →
        (update A B s dev tm).1.tap_ignore_start_tm = tm) := by
  have ht := update_accelerometer_tap A s dev tm
  have hf := update_accelerometer_frame A s dev tm
  cases hg : (update_accelerometer A s dev tm).2 with
  | none =>
    rw [update_eq_of_none A B s dev tm hg]
    have hi := (update_inputs_frame B (update_accelerometer A s dev tm).1 tm).2.2.2.2
    constructor
    · rcases hi with hi | hi
      · rcases ht.1 with h | h
        · left; rw [hi, h]
        · right; rw [hi, h]
      · right; exact hi
    · intro hact
      rcases hact with hact | hact
      · rcases hi with hi | hi
        · rw [hi]; exact ht.2 hact
        · exact hi
      · apply update_inputs_tap_of_activity
        obtain ⟨-, h2, h3, h4, h5, h6, h7⟩ := hf
        rw [h2, h3, h4, h5, h6, h7]
        exact hact.2
  | some g =>
    rw [update_eq_of_some A B s dev tm g hg]
    refine ⟨ht.1, ?_⟩
    intro hact
    rcases hact with hact | hact
    · exact ht.2 hact
    · rw [hact.1] at hg
      exact absurd hg (by simp)

/-- A timestamp field that every poll either keeps or sets to the poll's time holds, after
any run of later polls, a time between its earlier value and the time of the last poll. -/
theorem run_stamp (A : FloatOps F) (B : DebouncedButtonOps β)
    (f : CircuitPlaygroundGestures F β → Nat)
    (hf : ∀ s p, f (poll A B s p).1 = f s ∨ f (poll A B s p).1 = p.tm % 4294967296)
    (mid : List (Poll F)) (s : CircuitPlaygroundGestures F β) (T : Nat)
    (hT : f s = T % 4294967296) (hlo : ∀ m ∈ mid, T ≤ m.tm)
    (hmono : mid.Pairwise (fun a b => a.tm ≤ b.tm)) :
    ∃ T1, f (run A B s mid) = T1 % 4294967296 ∧ T ≤ T1 ∧
      ∀ t, T ≤ t → (∀ m ∈ mid, m.tm ≤ t) → T1 ≤ t := by
  induction mid generalizing s T with
  | nil => exact ⟨T, hT, le_refl T, fun t ht _ => ht⟩
  | cons m ms ih =>
    have hm := hlo m (by simp)
    have hmono2 := (List.pairwise_cons.1 hmono).2
    have hle := (List.pairwise_cons.1 hmono).1
    simp only [run]
    rcases hf s m with h | h
    · obtain ⟨T1, h1, h2, h3⟩ := ih (poll A B s m).1 T (by rw [h, hT])
        (fun x hx => hlo x (List.mem_cons_of_mem _ hx)) hmono2
      exact ⟨T1, h1, h2, fun t ht hall =>
        h3 t ht (fun x hx => hall x (List.mem_cons_of_mem _ hx))⟩
    · obtain ⟨T1, h1, h2, h3⟩ := ih (poll A B s m).1 m.tm h hle hmono2
      exact ⟨T1, h1, le_trans hm h2, fun t _ hall =>
        h3 t (hall m (by simp)) (fun x hx => hall x (List.mem_cons_of_mem _ hx))⟩

theorem poll_shake (A : FloatOps F) (B : DebouncedButtonOps β)
    (s : CircuitPlaygroundGestures F β) (p : Poll F) :
    (poll A B s p).1.shake_reset_start_tm = s.shake_reset_start_tm ∨
      (poll A B s p).1.shake_reset_start_tm = p.tm % 4294967296 :=
  (update_shake A B (latch s p) p.dev (p.tm % 4294967296)).2

theorem poll_tap (A : FloatOps F) (B : DebouncedButtonOps β)
    (s : CircuitPlaygroundGestures F β) (p : Poll F) :
    (poll A B s p).1.tap_ignore_start_tm = s.tap_ignore_start_tm ∨
      (poll A B s p).1.tap_ignore_start_tm = p.tm % 4294967296 :=
  (update_tap A B (latch s p) p.dev (p.tm % 4294967296)).1

/-- Two polls that return `SHAKEN` within a span of less than `2^32` ticks are at least 500
ticks apart. -/
theorem shaken_polls_apart (A : FloatOps F) (B : DebouncedButtonOps β)
    (s : CircuitPlaygroundGestures F β) (p q : Poll F) (mid : List (Poll F))
    (hmono : (p :: (mid ++ [q])).Pairwise (fun a b => a.tm ≤ b.tm))
    (hspan : q.tm < p.tm + 4294967296)
    (hp : (poll A B s p).2 = Gesture.SHAKEN)
    (hq : (poll A B (run A B (poll A B s p).1 mid) q).2 = Gesture.SHAKEN) :
    p.tm + 500 ≤ q.tm := by
  have hpq : ∀ m ∈ mid ++ [q], p.tm ≤ m.tm := (List.pairwise_cons.1 hmono).1
  have hmid : (mid ++ [q]).Pairwise (fun a b => a.tm ≤ b.tm) := (List.pairwise_cons.1 hmono).2
  rw [List.pairwise_append] at hmid
  have hset := ((update_shake A B (latch s p) p.dev (p.tm % 4294967296)).1 hp).2
  obtain ⟨T1, h1, h2, h3⟩ := run_stamp A B (fun s => s.shake_reset_start_tm)
    (poll_shake A B) mid (poll A B s p).1 p.tm hset
    (fun m hm => hpq m (List.mem_append_left _ hm)) hmid.1
  have hT1 : T1 ≤ q.tm := h3 q.tm (hpq q (by simp)) (fun m hm => hmid.2.2 m hm q (by simp))
  have h500 := ((update_shake A B (latch (run A B (poll A B s p).1 mid) q) q.dev
    (q.tm % 4294967296)).1 hq).1
  have hl : (latch (run A B (poll A B s p).1 mid) q).shake_reset_start_tm =
      (run A B (poll A B s p).1 mid).shake_reset_start_tm := rfl
  have h1b : (run A B (poll A B s p).1 mid).shake_reset_start_tm = T1 % 4294967296 := h1
  rw [hl, h1b, sub32_mod_of_le hT1 (by omega)] at h500
  omega

/-- C9: `update(tm)` returns `SHAKEN` only if `(tm - lastShake) mod 2^32 >= 500`, and it then
sets `lastShake` to `tm`; and in every run of polls with non-decreasing times spanning less
than `2^32` ticks, two polls that return `SHAKEN` are at least 500 ticks apart. -/
theorem shaken_at_most_once_per_reset (A : FloatOps F) (B : DebouncedButtonOps β) :
    (∀ (s : CircuitPlaygroundGestures F β) (dev : Lis3dh F) (tm : Nat),
        (update A B s dev tm).2 = Gesture.SHAKEN →
          500 ≤ sub32 tm s.shake_reset_start_tm ∧
            (update A B s dev tm).1.shake_reset_start_tm = tm) ∧
      (∀ (s : CircuitPlaygroundGestures F β) (p q : Poll F) (mid : List (Poll F)),
        (p :: (mid ++ [q])).Pairwise (fun a b => a.tm ≤ b.tm) →
        q.tm < p.tm + 4294967296 →
        (poll A B s p).2 = Gesture.SHAKEN →
        (poll A B (run A B (poll A B s p).1 mid) q).2 = Gesture.SHAKEN →
        p.tm + 500 ≤ q.tm) :=
  ⟨fun s dev tm => (update_shake A B s dev tm).1,
    fun s p q mid => shaken_polls_apart A B s p q mid⟩

/-- C10: when no accelerometer interrupt is pending, the driver reports a new sample and the
filtered magnitude after adding it exceeds `SHAKE_THRESHOLD`, `update(tm)` returns `SHAKEN`
or `NONE` and leaves the slide-switch debouncer and both button debouncers as they were. -/
theorem shake_preempts_inputs (A : FloatOps F) (B : DebouncedButtonOps β)
    (s : CircuitPlaygroundGestures F β) (dev : Lis3dh F) (tm : Nat)
    (hirq : s.accelerometer_interrupted = false)
    (hnew : dev.status_reg &&& 0x08 ≠ 0)
    (hmag : A.lt (SHAKE_THRESHOLD A)
      (total A (add_sample A s.acceleration dev.acc_x dev.acc_y dev.acc_z)) = true) :
    ((update A B s dev tm).2 = Gesture.SHAKEN ∨ (update A B s dev tm).2 = Gesture.NONE) ∧
      (update A B s dev tm).1.slide_switch = s.slide_switch ∧
      (update A B s dev tm).1.left_button = s.left_button ∧
      (update A B s dev tm).1.right_button = s.right_button := by
  have hf := update_accelerometer_frame A s dev tm
  have hg : (update_accelerometer A s dev tm).2 = some Gesture.SHAKEN ∨
      (update_accelerometer A s dev tm).2 = some Gesture.NONE := by
    unfold update_accelerometer
    rw [hirq]
    simp only [Bool.false_eq_true, if_false, hnew, ne_eq, not_false_eq_true, if_true]
    split_ifs <;> simp_all
  rcases hg with hg | hg
  · rw [update_eq_of_some A B s dev tm _ hg]
    exact ⟨Or.inl rfl, hf.2.1, hf.2.2.2.1, hf.2.2.2.2.1⟩
  · rw [update_eq_of_some A B s dev tm _ hg]
    exact ⟨Or.inr rfl, hf.2.1, hf.2.2.2.1, hf.2.2.2.2.1⟩

set_option maxRecDepth 100000 in
unseal Rat.add Rat.mul Rat.sub Rat.inv in
/-- On the fresh arbiter the sample `(60, 0, 0)` gives the filtered vector `(24, 0, 0)`:
the poll at 600 returns `SHAKEN`, and so does a poll at 1200 with the sample `(24, 0, 0)`. -/
theorem shake_polls_eval :
    (poll exact_arith (SpecButton.ops 400) fresh
        (poll_at 600 false false (sample_dev 60))).2 = Gesture.SHAKEN ∧
      (poll exact_arith (SpecButton.ops 400)
        (run exact_arith (SpecButton.ops 400)
          (poll exact_arith (SpecButton.ops 400) fresh
            (poll_at 600 false false (sample_dev 60))).1 [])
        (poll_at 1200 false false (sample_dev 24))).2 = Gesture.SHAKEN ∧
      exact_arith.lt (SHAKE_THRESHOLD exact_arith)
        (total exact_arith (add_sample exact_arith fresh.acceleration
          (sample_dev 60).acc_x (sample_dev 60).acc_y (sample_dev 60).acc_z)) = true ∧
      exact_arith.lt (TAP_IGNORE_THRESHOLD exact_arith)
        (total exact_arith (add_sample exact_arith fresh.acceleration
          (sample_dev 60).acc_x (sample_dev 60).acc_y (sample_dev 60).acc_z)) = true := by
  decide

/-- Witness for C9: polls at 600 and 1200 on the fresh arbiter both return `SHAKEN`. -/
theorem shaken_at_most_once_per_reset_witness :
    (poll exact_arith (SpecButton.ops 400) fresh
        (poll_at 600 false false (sample_dev 60))).2 = Gesture.SHAKEN ∧
      (poll exact_arith (SpecButton.ops 400)
        (run exact_arith (SpecButton.ops 400)
          (poll exact_arith (SpecButton.ops 400) fresh
            (poll_at 600 false false (sample_dev 60))).1 [])
        (poll_at 1200 false false (sample_dev 24))).2 = Gesture.SHAKEN ∧
      (poll_at 600 false false (sample_dev 60)).tm + 500 ≤
        (poll_at 1200 false false (sample_dev 24)).tm :=
  ⟨shake_polls_eval.1, shake_polls_eval.2.1,
    (shaken_at_most_once_per_reset exact_arith (SpecButton.ops 400)).2 fresh
      (poll_at 600 false false (sample_dev 60)) (poll_at 1200 false false (sample_dev 24)) []
      (by decide) (by decide) shake_polls_eval.1 shake_polls_eval.2.1⟩

/-- Witness for C10: the fresh arbiter receives the sample `(60, 0, 0)` at time 600. -/
theorem shake_preempts_inputs_witness :
    ((update exact_arith (SpecButton.ops 400) fresh (sample_dev 60) 600).2 = Gesture.SHAKEN ∨
        (update exact_arith (SpecButton.ops 400) fresh (sample_dev 60) 600).2 =
          Gesture.NONE) ∧
      (update exact_arith (SpecButton.ops 400) fresh (sample_dev 60) 600).1.slide_switch =
        fresh.slide_switch ∧
      (update exact_arith (SpecButton.ops 400) fresh (sample_dev 60) 600).1.left_button =
        fresh.left_button ∧
      (update exact_arith (SpecButton.ops 400) fresh (sample_dev 60) 600).1.right_button =
        fresh.right_button :=
  shake_preempts_inputs exact_arith (SpecButton.ops 400) fresh (sample_dev 60) 600
    (by decide) (by decide) shake_polls_eval.2.2.1

/-- C8, counterexample: on the fresh arbiter with idle buttons, the poll at time 1000 sees
the slide switch at a new raw level (a raw edge, which the debouncer records), and the poll
at time 1005, with the interrupt pending and a double tap decoded, returns `DOUBLE_TAPPED`
5 ticks after that raw edge. -/
theorem slide_switch_raw_edge_counterexample :
    slide_switch_raw_edge exact_arith (latch fresh (poll_at 1000 true false quiet_dev))
        (poll_at 1000 true false quiet_dev).dev
        ((poll_at 1000 true false quiet_dev).tm % 4294967296) ∧
      gestures exact_arith (SpecButton.ops 400) fresh
        [poll_at 1000 true false quiet_dev, poll_at 1005 true true tap_dev] =
        [Gesture.NONE, Gesture.DOUBLE_TAPPED] ∧
      (poll_at 1005 true true tap_dev).tm - (poll_at 1000 true false quiet_dev).tm ≤ 250 := by
  unfold slide_switch_raw_edge
  decide

/-- After a poll whose `update` sets the tap-suppression timestamp on activity, no poll
within the next 250 ticks returns `DOUBLE_TAPPED`. -/
theorem no_tap_after_activity (A : FloatOps F) (B : DebouncedButtonOps β)
    (s : CircuitPlaygroundGestures F β) (p q : Poll F) (mid : List (Poll F))
    (hmono : (p :: (mid ++ [q])).Pairwise (fun a b => a.tm ≤ b.tm))
    (hact : sample_over_tap_threshold A (latch s p) p.dev ∨
      input_activity A B (latch s p) p.dev (p.tm % 4294967296))
    (hq : q.tm ≤ p.tm + 250) :
    (poll A B (run A B (poll A B s p).1 mid) q).2 ≠ Gesture.DOUBLE_TAPPED := by
  intro htap
  have hpq : ∀ m ∈ mid ++ [q], p.tm ≤ m.tm := (List.pairwise_cons.1 hmono).1
  have hmid : (mid ++ [q]).Pairwise (fun a b => a.tm ≤ b.tm) := (List.pairwise_cons.1 hmono).2
  rw [List.pairwise_append] at hmid
  have hset : (poll A B s p).1.tap_ignore_start_tm = p.tm % 4294967296 :=
    (update_tap A B (latch s p) p.dev (p.tm % 4294967296)).2 hact
  obtain ⟨T1, h1, h2, h3⟩ := run_stamp A B (fun s => s.tap_ignore_start_tm)
    (poll_tap A B) mid (poll A B s p).1 p.tm hset
    (fun m hm => hpq m (List.mem_append_left _ hm)) hmid.1
  have hT1 : T1 ≤ q.tm := h3 q.tm (hpq q (by simp)) (fun m hm => hmid.2.2 m hm q (by simp))
  have h250 := (update_double_tapped A B (latch (run A B (poll A B s p).1 mid) q) q.dev
    (q.tm % 4294967296) htap).2.2
  have hl : (latch (run A B (poll A B s p).1 mid) q).tap_ignore_start_tm =
      (run A B (poll A B s p).1 mid).tap_ignore_start_tm := rfl
  have h1b : (run A B (poll A B s p).1 mid).tap_ignore_start_tm = T1 % 4294967296 := h1
  rw [hl, h1b, sub32_mod_of_le hT1 (by omega)] at h250
  omega

/-- C8, amended: in every run of polls with non-decreasing times (each passed to `update`
modulo `2^32`, so in particular for times that do not wrap), let `p` be a poll whose
`update` either (ii) feeds the filter a sample after which the magnitude exceeds
`TAP_IGNORE_THRESHOLD`, or (i) gets past the accelerometer part and finds input pending on a
button, or obtains an event from the slide-switch debouncer or from a button debouncer.
Then `p` itself does not return `DOUBLE_TAPPED`, and no later poll `q` with
`q.tm - p.tm <= 250` returns `DOUBLE_TAPPED`. -/
theorem tap_suppressed_after_activity (A : FloatOps F) (B : DebouncedButtonOps β)
    (s : CircuitPlaygroundGestures F β) (p q : Poll F) (mid : List (Poll F))
    (hmono : (p :: (mid ++ [q])).Pairwise (fun a b => a.tm ≤ b.tm))
    (hact : sample_over_tap_threshold A (latch s p) p.dev ∨
      input_activity A B (latch s p) p.dev (p.tm % 4294967296))
    (hq : q.tm ≤ p.tm + 250) :
    (poll A B s p).2 ≠ Gesture.DOUBLE_TAPPED ∧
      (poll A B (run A B (poll A B s p).1 mid) q).2 ≠ Gesture.DOUBLE_TAPPED := by
  constructor
  · intro htap
    have hi := (update_double_tapped A B (latch s p) p.dev (p.tm % 4294967296) htap).1
    rcases hact with hact | hact
    · rw [hact.1] at hi
      exact absurd hi (by simp)
    · unfold poll at htap
      rw [update_eq_of_none A B _ _ _ hact.1] at htap
      exact absurd htap (update_inputs_gesture B _ _).1
  · exact no_tap_after_activity A B s p q mid hmono hact hq

/-- Witness for C8 (amended): the fresh arbiter receives the sample `(60, 0, 0)` at time
1000, and a double tap is signalled at time 1100. -/
theorem tap_suppressed_after_activity_witness :
    (poll exact_arith (SpecButton.ops 400) fresh
        (poll_at 1000 false false (sample_dev 60))).2 ≠ Gesture.DOUBLE_TAPPED ∧
      (poll exact_arith (SpecButton.ops 400)
        (run exact_arith (SpecButton.ops 400)
          (poll exact_arith (SpecButton.ops 400) fresh
            (poll_at 1000 false false (sample_dev 60))).1 [])
        (poll_at 1100 false true tap_dev)).2 ≠ Gesture.DOUBLE_TAPPED :=
  tap_suppressed_after_activity exact_arith (SpecButton.ops 400) fresh
    (poll_at 1000 false false (sample_dev 60)) (poll_at 1100 false true tap_dev) []
    (by decide)
    (Or.inl ⟨by decide, by decide, shake_polls_eval.2.2.2⟩) (by decide)

/-! ### Switch and button arbitration -/

/-- Lines 164-174 when the slide-switch debouncer returns an event. -/
theorem update_inputs_switch_event (B : DebouncedButtonOps β)
    (s : CircuitPlaygroundGestures F β) (tm : Nat)
    (h : (s.slide_switch.update s.slide_switch_reading tm).2 ≠ DebouncedSwitch.Input.NONE) :
    (update_inputs B s tm).2 =
        (if (s.slide_switch.update s.slide_switch_reading tm).2 =
            DebouncedSwitch.Input.SWITCHED_ON
          then Gesture.SLIDE_SWITCHED_ON else Gesture.SLIDE_SWITCHED_OFF) ∧
      (update_inputs B s tm).1.tap_ignore_start_tm = tm ∧
      (update_inputs B s tm).1.left_button = s.left_button ∧
      (update_inputs B s tm).1.right_button = s.right_button := by
  unfold update_inputs
  simp only
  split_ifs <;> simp_all

/-- Lines 176-223 when the slide-switch debouncer returns `NONE`: both buttons are updated
and the gesture is that of `button_gesture` on their inputs and held flags. -/
theorem update_inputs_buttons (B : DebouncedButtonOps β)
    (s : CircuitPlaygroundGestures F β) (tm : Nat)
    (h : (s.slide_switch.update s.slide_switch_reading tm).2 = DebouncedSwitch.Input.NONE) :
    (update_inputs B s tm).1.left_button =
        (B.update s.left_button s.left_button_reading tm).1 ∧
      (update_inputs B s tm).1.right_button =
        (B.update s.right_button s.right_button_reading tm).1 ∧
      (update_inputs B s tm).2 =
        (if (B.update s.left_button s.left_button_reading tm).2 = ButtonInput.NONE ∧
            (B.update s.right_button s.right_button_reading tm).2 = ButtonInput.NONE
          then Gesture.NONE
          else button_gesture (B.update s.left_button s.left_button_reading tm).2
            (B.update s.right_button s.right_button_reading tm).2
            (held B (B.update s.left_button s.left_button_reading tm).1 tm)
            (held B (B.update s.right_button s.right_button_reading tm).1 tm)) ∧
      (¬ ((B.update s.left_button s.left_button_reading tm).2 = ButtonInput.NONE ∧
          (B.update s.right_button s.right_button_reading tm).2 = ButtonInput.NONE) →
        (update_inputs B s tm).1.tap_ignore_start_tm = tm) := by
  unfold update_inputs held
  simp only
  split_ifs <;> simp_all

/-- A call that gets past the accelerometer part continues on an object with the same
switch, buttons and latched readings. -/
theorem update_of_fallthrough (A : FloatOps F) (B : DebouncedButtonOps β)
    (s : CircuitPlaygroundGestures F β) (dev : Lis3dh F) (tm : Nat)
    (hacc : (update_accelerometer A s dev tm).2 = none) :
    ∃ s1 : CircuitPlaygroundGestures F β, update A B s dev tm = update_inputs B s1 tm ∧
      s1.slide_switch = s.slide_switch ∧ s1.slide_switch_reading = s.slide_switch_reading ∧
      s1.left_button = s.left_button ∧ s1.right_button = s.right_button ∧
      s1.left_button_reading = s.left_button_reading ∧
      s1.right_button_reading = s.right_button_reading := by
  obtain ⟨-, h2, h3, h4, h5, h6, h7⟩ := update_accelerometer_frame A s dev tm
  exact ⟨_, update_eq_of_none A B s dev tm hacc, h2, h3, h4, h5, h6, h7⟩

/-- C11: in a call that gets past the accelerometer part (no `DOUBLE_TAPPED`,
`ORIENTATION_CHANGED`, `SHAKEN` or shake-suppressed `NONE`) and whose slide-switch debouncer
reports `SWITCHED_ON` or `SWITCHED_OFF`, `update(tm)` returns `SLIDE_SWITCHED_ON` for
`SWITCHED_ON` and `SLIDE_SWITCHED_OFF` for `SWITCHED_OFF` whatever the buttons and their
readings are, sets the tap-suppression timestamp to `tm`, and leaves both button debouncers
as they were. -/
theorem switch_event_preempts_buttons (A : FloatOps F) (B : DebouncedButtonOps β)
    (s : CircuitPlaygroundGestures F β) (dev : Lis3dh F) (tm : Nat)
    (hacc : (update_accelerometer A s dev tm).2 = none)
    (hsw : (s.slide_switch.update s.slide_switch_reading tm).2 =
        DebouncedSwitch.Input.SWITCHED_ON ∨
      (s.slide_switch.update s.slide_switch_reading tm).2 =
        DebouncedSwitch.Input.SWITCHED_OFF) :
    ((s.slide_switch.update s.slide_switch_reading tm).2 = DebouncedSwitch.Input.SWITCHED_ON →
        (update A B s dev tm).2 = Gesture.SLIDE_SWITCHED_ON) ∧
      ((s.slide_switch.update s.slide_switch_reading tm).2 =
          DebouncedSwitch.Input.SWITCHED_OFF →
        (update A B s dev tm).2 = Gesture.SLIDE_SWITCHED_OFF) ∧
      (update A B s dev tm).1.tap_ignore_start_tm = tm ∧
      (update A B s dev tm).1.left_button = s.left_button ∧
      (update A B s dev tm).1.right_button = s.right_button := by
  obtain ⟨s1, hu, e1, e2, e3, e4, -, -⟩ := update_of_fallthrough A B s dev tm hacc
  have hne : (s1.slide_switch.update s1.slide_switch_reading tm).2 ≠
      DebouncedSwitch.Input.NONE := by
    rw [e1, e2]
    rcases hsw with h | h <;> rw [h] <;> decide
  obtain ⟨g, t, l, r⟩ := update_inputs_switch_event B s1 tm hne
  rw [hu, g, t, l, r, e1, e2, e3, e4]
  refine ⟨fun h => by rw [h]; rfl, fun h => by rw [h]; rfl, rfl, rfl, rfl⟩

/-- Witness for C11: the slide switch goes high at time 0 on the fresh arbiter and is still
high at time 30, where its debouncer reports `SWITCHED_ON`. -/
theorem switch_event_preempts_buttons_witness :
    (update exact_arith (SpecButton.ops 400)
        (latch (run exact_arith (SpecButton.ops 400) fresh [poll_at 0 true false quiet_dev])
          (poll_at 30 true false quiet_dev)) quiet_dev 30).2 = Gesture.SLIDE_SWITCHED_ON ∧
      (update exact_arith (SpecButton.ops 400)
        (latch (run exact_arith (SpecButton.ops 400) fresh [poll_at 0 true false quiet_dev])
          (poll_at 30 true false quiet_dev)) quiet_dev 30).1.tap_ignore_start_tm = 30 :=
  ⟨(switch_event_preempts_buttons exact_arith (SpecButton.ops 400)
      (latch (run exact_arith (SpecButton.ops 400) fresh [poll_at 0 true false quiet_dev])
        (poll_at 30 true false quiet_dev)) quiet_dev 30 (by decide)
      (Or.inl (by decide))).1 (by decide),
    (switch_event_preempts_buttons exact_arith (SpecButton.ops 400)
      (latch (run exact_arith (SpecButton.ops 400) fresh [poll_at 0 true false quiet_dev])
        (poll_at 30 true false quiet_dev)) quiet_dev 30 (by decide)
      (Or.inl (by decide))).2.2.1⟩

/-- A call that reaches button arbitration: the gesture and the button objects afterwards. -/
theorem update_buttons (A : FloatOps F) (B : DebouncedButtonOps β)
    (s : CircuitPlaygroundGestures F β) (dev : Lis3dh F) (tm : Nat)
    (hacc : (update_accelerometer A s dev tm).2 = none)
    (hsw : (s.slide_switch.update s.slide_switch_reading tm).2 = DebouncedSwitch.Input.NONE) :
    (update A B s dev tm).1.left_button =
        (B.update s.left_button s.left_button_reading tm).1 ∧
      (update A B s dev tm).1.right_button =
        (B.update s.right_button s.right_button_reading tm).1 ∧
      (update A B s dev tm).2 =
        (if (B.update s.left_button s.left_button_reading tm).2 = ButtonInput.NONE ∧
            (B.update s.right_button s.right_button_reading tm).2 = ButtonInput.NONE
          then Gesture.NONE
          else button_gesture (B.update s.left_button s.left_button_reading tm).2
            (B.update s.right_button s.right_button_reading tm).2
            (held B (B.update s.left_button s.left_button_reading tm).1 tm)
            (held B (B.update s.right_button s.right_button_reading tm).1 tm)) ∧
      (¬ ((B.update s.left_button s.left_button_reading tm).2 = ButtonInput.NONE ∧
          (B.update s.right_button s.right_button_reading tm).2 = ButtonInput.NONE) →
        (update A B s dev tm).1.tap_ignore_start_tm = tm) := by
  obtain ⟨s1, hu, e1, e2, e3, e4, e5, e6⟩ := update_of_fallthrough A B s dev tm hacc
  have h := update_inputs_buttons B s1 tm (by rw [e1, e2]; exact hsw)
  rw [e3, e4, e5, e6] at h
  rw [hu]
  exact h

/-- C12: in a call that reaches button arbitration (it gets past the accelerometer part and
the slide-switch debouncer returns `NONE`), when both button debouncers report the same
event among `LONG_PRESS`, `RELEASE` and `CLICK`, `update` returns the combined gesture:
`BOTH_PRESSED`, `BOTH_RELEASED`, `BOTH_CLICKED`; the held flags play no part. -/
theorem simultaneous_same_event_combined (A : FloatOps F) (B : DebouncedButtonOps β)
    (s : CircuitPlaygroundGestures F β) (dev : Lis3dh F) (tm : Nat)
    (hacc : (update_accelerometer A s dev tm).2 = none)
    (hsw : (s.slide_switch.update s.slide_switch_reading tm).2 = DebouncedSwitch.Input.NONE) :
    ((B.update s.left_button s.left_button_reading tm).2 = ButtonInput.LONG_PRESS →
        (B.update s.right_button s.right_button_reading tm).2 = ButtonInput.LONG_PRESS →
        (update A B s dev tm).2 = Gesture.BOTH_PRESSED) ∧
      ((B.update s.left_button s.left_button_reading tm).2 = ButtonInput.RELEASE →
        (B.update s.right_button s.right_button_reading tm).2 = ButtonInput.RELEASE →
        (update A B s dev tm).2 = Gesture.BOTH_RELEASED) ∧
      ((B.update s.left_button s.left_button_reading tm).2 = ButtonInput.CLICK →
        (B.update s.right_button s.right_button_reading tm).2 = ButtonInput.CLICK →
        (update A B s dev tm).2 = Gesture.BOTH_CLICKED) ∧
      (∀ left_held right_held : Bool,
        button_gesture ButtonInput.LONG_PRESS ButtonInput.LONG_PRESS left_held right_held =
            Gesture.BOTH_PRESSED ∧
          button_gesture ButtonInput.RELEASE ButtonInput.RELEASE left_held right_held =
            Gesture.BOTH_RELEASED ∧
          button_gesture ButtonInput.CLICK ButtonInput.CLICK left_held right_held =
            Gesture.BOTH_CLICKED) := by
  have h := (update_buttons A B s dev tm hacc hsw).2.2.1
  refine ⟨?_, ?_, ?_, by decide⟩ <;>
  · intro hl hr
    rw [h, hl, hr]
    rfl

/-- Witness for C12: both buttons go down at time 0 on the fresh arbiter, are debounced at
time 30 and still down at time 300, where both debouncers report `LONG_PRESS`. -/
theorem simultaneous_same_event_combined_witness :
    (update exact_arith (SpecButton.ops 400)
      (latch (run exact_arith (SpecButton.ops 400) fresh
          [button_poll 0 true true, button_poll 30 true true])
        (button_poll 300 true true)) quiet_dev 300).2 = Gesture.BOTH_PRESSED :=
  (simultaneous_same_event_combined exact_arith (SpecButton.ops 400)
    (latch (run exact_arith (SpecButton.ops 400) fresh
        [button_poll 0 true true, button_poll 30 true true])
      (button_poll 300 true true)) quiet_dev 300 (by decide) (by decide)).1
    (by decide) (by decide)

/-- C13, counterexample: at time 170 of a run in which the right button is clicked and then
both buttons are clicked together, the left debouncer reports `CLICK` and the right one
`DOUBLE_CLICK`; the call reaches button arbitration and returns `NONE`, not
`RIGHT_DOUBLE_CLICKED`.  Lines 213-223 give `NONE` for a right `DOUBLE_CLICK` next to a left
`CLICK` whatever the held flags are. -/
theorem right_double_click_counterexample :
    ((SpecButton.ops 400).update click_and_double_click_state.left_button
        click_and_double_click_state.left_button_reading 170).2 = ButtonInput.CLICK ∧
      ((SpecButton.ops 400).update click_and_double_click_state.right_button
        click_and_double_click_state.right_button_reading 170).2 = ButtonInput.DOUBLE_CLICK ∧
      (update_accelerometer exact_arith click_and_double_click_state quiet_dev 170).2 = none ∧
      (click_and_double_click_state.slide_switch.update
        click_and_double_click_state.slide_switch_reading 170).2 =
          DebouncedSwitch.Input.NONE ∧
      (update exact_arith (SpecButton.ops 400) click_and_double_click_state quiet_dev 170).2 =
        Gesture.NONE ∧
      (∀ left_held right_held : Bool,
        button_gesture ButtonInput.CLICK ButtonInput.DOUBLE_CLICK left_held right_held =
          Gesture.NONE) := by
  decide

theorem button_gesture_both (l r : ButtonInput) (lh rh : Bool)
    (hl : l ≠ ButtonInput.NONE) (hne : l ≠ r) :
    (r = ButtonInput.CLICK → button_gesture l r lh rh = Gesture.RIGHT_CLICKED) ∧
      (r = ButtonInput.LONG_PRESS → button_gesture l r lh rh = Gesture.RIGHT_PRESSED) ∧
      (r = ButtonInput.RELEASE → button_gesture l r lh rh = Gesture.RIGHT_RELEASED) ∧
      (r = ButtonInput.DOUBLE_CLICK → button_gesture l r lh rh = Gesture.NONE) := by
  cases l <;> cases r <;> cases lh <;> cases rh <;> simp_all [button_gesture]

/-- C13, amended: in a call that reaches button arbitration, for every pair of non-`NONE`
button events (left, right) with left different from right, a right `CLICK` gives
`RIGHT_CLICKED`, a right `LONG_PRESS` gives `RIGHT_PRESSED` and a right `RELEASE` gives
`RIGHT_RELEASED` (the left event is dropped; in particular right `RELEASE` with left `CLICK`
gives `RIGHT_RELEASED`), while a right `DOUBLE_CLICK` gives `NONE` (both events are
dropped). -/
theorem simultaneous_different_events (A : FloatOps F) (B : DebouncedButtonOps β)
    (s : CircuitPlaygroundGestures F β) (dev : Lis3dh F) (tm : Nat)
    (hacc : (update_accelerometer A s dev tm).2 = none)
    (hsw : (s.slide_switch.update s.slide_switch_reading tm).2 = DebouncedSwitch.Input.NONE)
    (hl : (B.update s.left_button s.left_button_reading tm).2 ≠ ButtonInput.NONE)
    (hr : (B.update s.right_button s.right_button_reading tm).2 ≠ ButtonInput.NONE)
    (hne : (B.update s.left_button s.left_button_reading tm).2 ≠
      (B.update s.right_button s.right_button_reading tm).2) :
    ((B.update s.right_button s.right_button_reading tm).2 = ButtonInput.CLICK →
        (update A B s dev tm).2 = Gesture.RIGHT_CLICKED) ∧
      ((B.update s.right_button s.right_button_reading tm).2 = ButtonInput.LONG_PRESS →
        (update A B s dev tm).2 = Gesture.RIGHT_PRESSED) ∧
      ((B.update s.right_button s.right_button_reading tm).2 = ButtonInput.RELEASE →
        (update A B s dev tm).2 = Gesture.RIGHT_RELEASED) ∧
      ((B.update s.right_button s.right_button_reading tm).2 = ButtonInput.DOUBLE_CLICK →
        (update A B s dev tm).2 = Gesture.NONE) := by
  have h := (update_buttons A B s dev tm hacc hsw).2.2.1
  rw [if_neg (fun hboth => hr hboth.2)] at h
  rw [h]
  exact button_gesture_both _ _ _ _ hl hne

/-- Witness for C13 (amended): at time 370 of a run in which the right button is released
after a long press while the left button is clicked, the left debouncer reports `CLICK`,
the right one `RELEASE`, and `update` returns `RIGHT_RELEASED`. -/
theorem simultaneous_different_events_witness :
    ((SpecButton.ops 400).update click_and_release_state.left_button
        click_and_release_state.left_button_reading 370).2 = ButtonInput.CLICK ∧
      ((SpecButton.ops 400).update click_and_release_state.right_button
        click_and_release_state.right_button_reading 370).2 = ButtonInput.RELEASE ∧
      (update exact_arith (SpecButton.ops 400) click_and_release_state quiet_dev 370).2 =
        Gesture.RIGHT_RELEASED :=
  ⟨by decide, by decide,
    (simultaneous_different_events exact_arith (SpecButton.ops 400) click_and_release_state
      quiet_dev 370 (by decide) (by decide) (by decide) (by decide) (by decide)).2.2.1
      (by decide)⟩

theorem button_gesture_single (e : ButtonInput) (lh rh : Bool) (he : e ≠ ButtonInput.NONE) :
    button_gesture e ButtonInput.NONE lh rh = single_button_gesture false e rh ∧
      button_gesture ButtonInput.NONE e lh rh = single_button_gesture true e lh ∧
      single_button_gesture false e rh ≠ Gesture.NONE ∧
      single_button_gesture true e lh ≠ Gesture.NONE := by
  cases e <;> cases lh <;> cases rh <;> simp_all [button_gesture, single_button_gesture]

/-- C14: in a call that reaches button arbitration and in which exactly one button
debouncer reports a non-`NONE` event, `update` returns the gesture of
`single_button_gesture` for that side, the event and the held flag of the other button
(pressed with `duration(tm)` over `CLICKED_CUTOFF_MS`, taken after the button's update);
the result is not `NONE` and the tap-suppression timestamp is set to `tm`. -/
theorem single_button_event_mapped (A : FloatOps F) (B : DebouncedButtonOps β)
    (s : CircuitPlaygroundGestures F β) (dev : Lis3dh F) (tm : Nat)
    (hacc : (update_accelerometer A s dev tm).2 = none)
    (hsw : (s.slide_switch.update s.slide_switch_reading tm).2 =
      DebouncedSwitch.Input.NONE) :
    ((B.update s.left_button s.left_button_reading tm).2 ≠ ButtonInput.NONE →
        (B.update s.right_button s.right_button_reading tm).2 = ButtonInput.NONE →
        (update A B s dev tm).2 =
            single_button_gesture false (B.update s.left_button s.left_button_reading tm).2
              (held B (B.update s.right_button s.right_button_reading tm).1 tm) ∧
          (update A B s dev tm).2 ≠ Gesture.NONE ∧
          (update A B s dev tm).1.tap_ignore_start_tm = tm) ∧
      ((B.update s.right_button s.right_button_reading tm).2 ≠ ButtonInput.NONE →
        (B.update s.left_button s.left_button_reading tm).2 = ButtonInput.NONE →
        (update A B s dev tm).2 =
            single_button_gesture true (B.update s.right_button s.right_button_reading tm).2
              (held B (B.update s.left_button s.left_button_reading tm).1 tm) ∧
          (update A B s dev tm).2 ≠ Gesture.NONE ∧
          (update A B s dev tm).1.tap_ignore_start_tm = tm) := by
  obtain ⟨-, -, hg, ht⟩ := update_buttons A B s dev tm hacc hsw
  constructor
  · intro hl hr
    have hnot : ¬ ((B.update s.left_button s.left_button_reading tm).2 = ButtonInput.NONE ∧
        (B.update s.right_button s.right_button_reading tm).2 = ButtonInput.NONE) :=
      fun hb => hl hb.1
    rw [if_neg hnot] at hg
    have hb := button_gesture_single (B.update s.left_button s.left_button_reading tm).2
      (held B (B.update s.left_button s.left_button_reading tm).1 tm)
      (held B (B.update s.right_button s.right_button_reading tm).1 tm) hl
    rw [hr] at hg
    rw [hg, hb.1]
    exact ⟨rfl, hb.2.2.1, ht hnot⟩
  · intro hr hl
    have hnot : ¬ ((B.update s.left_button s.left_button_reading tm).2 = ButtonInput.NONE ∧
        (B.update s.right_button s.right_button_reading tm).2 = ButtonInput.NONE) :=
      fun hb => hr hb.2
    rw [if_neg hnot] at hg
    have hb := button_gesture_single (B.update s.right_button s.right_button_reading tm).2
      (held B (B.update s.left_button s.left_button_reading tm).1 tm)
      (held B (B.update s.right_button s.right_button_reading tm).1 tm) hr
    rw [hl] at hg
    rw [hg, hb.2.1]
    exact ⟨rfl, hb.2.2.2, ht hnot⟩

/-- Witness for C14: at time 370 of a run in which the left button is clicked while the
right button has been down since time 0, the left debouncer reports `CLICK`, the right one
`NONE`, and `update` returns `RIGHT_HELD_LEFT_CLICKED`. -/
theorem single_button_event_mapped_witness :
    (update exact_arith (SpecButton.ops 400) click_while_held_state quiet_dev 370).2 =
        Gesture.RIGHT_HELD_LEFT_CLICKED ∧
      (update exact_arith (SpecButton.ops 400) click_while_held_state quiet_dev
        370).1.tap_ignore_start_tm = 370 :=
  ⟨((single_button_event_mapped exact_arith (SpecButton.ops 400) click_while_held_state
      quiet_dev 370 (by decide) (by decide)).1 (by decide) (by decide)).1.trans (by decide),
    ((single_button_event_mapped exact_arith (SpecButton.ops 400) click_while_held_state
      quiet_dev 370 (by decide) (by decide)).1 (by decide) (by decide)).2.2⟩

end CircuitPlaygroundGestures

theorem land_mod_128 (c m : Nat) (hm : (2 ^ 7 - 1) &&& m = m) :
    c &&& m = (c % 128) &&& m := by
  calc c &&& m = c &&& ((2 ^ 7 - 1) &&& m) := by rw [hm]
    _ = (c &&& (2 ^ 7 - 1)) &&& m := (Nat.and_assoc _ _ _).symm
    _ = (c % 2 ^ 7) &&& m := by rw [Nat.and_pow_two_sub_one_eq_mod]
    _ = (c % 128) &&& m := by norm_num

set_option maxRecDepth 1000000 in
theorem click_bits_table : ∀ r < 128,
    (r &&& 0x60 ≠ 0 ↔ (r / 32 % 2 = 1 ∨ r / 64 % 2 = 1)) ∧
      (r &&& 0x60 = 0x60 ↔ (r / 32 % 2 = 1 ∧ r / 64 % 2 = 1)) := by
  decide

/-- The test `click_src & 0x60` succeeds exactly when bit `0x20` or bit `0x40` is set. -/
theorem click_test_iff (c : Nat) :
    c &&& 0x60 ≠ 0 ↔ (c / 32 % 2 = 1 ∨ c / 64 % 2 = 1) := by
  rw [land_mod_128 c 0x60 (by decide)]
  have h := (click_bits_table (c % 128) (Nat.mod_lt _ (by decide))).1
  have e1 : c % 128 / 32 % 2 = c / 32 % 2 := by omega
  have e2 : c % 128 / 64 % 2 = c / 64 % 2 := by omega
  rw [e1, e2] at h
  exact h

namespace CircuitPlaygroundGestures

variable {F β : Type}

/-! ### Orientation, tap decoding and the interrupt branch -/

theorem update_orientation_result (s : CircuitPlaygroundGestures F β) (dev : Lis3dh F) :
    ((update_orientation s dev).2 = some Gesture.ORIENTATION_CHANGED →
        (update_orientation s dev).1.orientation =
            orientation_for_int1_src (dev.int1_src % 256) ∧
          (update_orientation s dev).1.orientation ≠ s.orientation) ∧
      ((update_orientation s dev).2 ≠ some Gesture.ORIENTATION_CHANGED →
        (update_orientation s dev).1.orientation = s.orientation) ∧
      (update_orientation s dev).1.acceleration = s.acceleration := by
  unfold update_orientation
  simp only
  split_ifs with h1 h2
  · exact ⟨fun _ => ⟨rfl, fun h => h2 h.symm⟩, fun h => absurd rfl h, rfl⟩
  · exact ⟨fun h => absurd h (by simp), fun _ => rfl, rfl⟩
  · exact ⟨fun h => absurd h (by simp), fun _ => rfl, rfl⟩

theorem update_accelerometer_orientation (A : FloatOps F) (s : CircuitPlaygroundGestures F β)
    (dev : Lis3dh F) (tm : Nat) :
    ((update_accelerometer A s dev tm).2 = some Gesture.ORIENTATION_CHANGED →
        s.accelerometer_interrupted = true ∧
          (update_accelerometer A s dev tm).1.orientation =
            orientation_for_int1_src (dev.int1_src % 256) ∧
          (update_accelerometer A s dev tm).1.orientation ≠ s.orientation) ∧
      ((update_accelerometer A s dev tm).2 ≠ some Gesture.ORIENTATION_CHANGED →
        (update_accelerometer A s dev tm).1.orientation = s.orientation) := by
  unfold update_accelerometer
  have ho := update_orientation_result
    ({ s with accelerometer_interrupted := false } : CircuitPlaygroundGestures F β) dev
  cases hi : s.accelerometer_interrupted
  · simp only [Bool.false_eq_true, if_false]
    split_ifs <;> simp
  · simp only [if_true]
    split_ifs
    · simp
    · exact ⟨fun h => ⟨trivial, ho.1 h⟩, ho.2.1⟩
    · exact ⟨fun h => ⟨trivial, ho.1 h⟩, ho.2.1⟩

/-- C15: if `update` returns `ORIENTATION_CHANGED`, the interrupt flag was pending, the
orientation stored after the call is the decoding of the motion-source byte and differs from
the one stored before; a call that returns anything else leaves `orientation()` as it
was. -/
theorem orientation_changes_only_when_reported (A : FloatOps F) (B : DebouncedButtonOps β)
    (s : CircuitPlaygroundGestures F β) (dev : Lis3dh F) (tm : Nat) :
    ((update A B s dev tm).2 = Gesture.ORIENTATION_CHANGED →
        s.accelerometer_interrupted = true ∧
          (update A B s dev tm).1.orientation =
            orientation_for_int1_src (dev.int1_src % 256) ∧
          (update A B s dev tm).1.orientation ≠ s.orientation) ∧
      ((update A B s dev tm).2 ≠ Gesture.ORIENTATION_CHANGED →
        (update A B s dev tm).1.orientation = s.orientation) := by
  have ho := update_accelerometer_orientation A s dev tm
  cases hg : (update_accelerometer A s dev tm).2 with
  | none =>
    rw [update_eq_of_none A B s dev tm hg, (update_inputs_frame B _ tm).2.2.1]
    refine ⟨fun h => absurd h (update_inputs_gesture B _ tm).2.2, fun _ => ?_⟩
    exact ho.2 (by rw [hg]; simp)
  | some g =>
    rw [update_eq_of_some A B s dev tm g hg]
    constructor
    · intro h
      simp only at h
      subst h
      exact ho.1 hg
    · intro h
      apply ho.2
      rw [hg]
      intro hc
      exact h (Option.some.inj hc)

/-- Witness for C15: the fresh arbiter with the interrupt pending and motion source `0x20`
reports the change to `Z_UP`. -/
theorem orientation_changes_only_when_reported_witness :
    (update exact_arith (SpecButton.ops 400)
        (latch fresh (poll_at 100 false true quiet_dev))
        { quiet_dev with int1_src := 0x20 } 100).2 = Gesture.ORIENTATION_CHANGED ∧
      (update exact_arith (SpecButton.ops 400)
        (latch fresh (poll_at 100 false true quiet_dev))
        { quiet_dev with int1_src := 0x20 } 100).1.orientation = Orientation.Z_UP :=
  ⟨by decide,
    ((orientation_changes_only_when_reported exact_arith (SpecButton.ops 400)
      (latch fresh (poll_at 100 false true quiet_dev))
      { quiet_dev with int1_src := 0x20 } 100).1 (by decide)).2.1.trans (by decide)⟩

/-- C16, counterexample: on the fresh arbiter with the interrupt pending at time 1000 (more
than 250 ticks after the initial suppression timestamp 0), a click source with only bit
`0x20` set, and likewise one with only bit `0x40` set, makes `update` return
`DOUBLE_TAPPED`. -/
theorem one_click_bit_counterexample :
    (0x20 : Nat) &&& 0x60 ≠ 0x60 ∧ (0x40 : Nat) &&& 0x60 ≠ 0x60 ∧
      (latch fresh (poll_at 1000 false true (click_dev 0x20))).accelerometer_interrupted =
        true ∧
      250 < sub32 1000
        (latch fresh (poll_at 1000 false true (click_dev 0x20))).tap_ignore_start_tm ∧
      (update exact_arith (SpecButton.ops 400)
        (latch fresh (poll_at 1000 false true (click_dev 0x20)))
        (click_dev 0x20) 1000).2 = Gesture.DOUBLE_TAPPED ∧
      (update exact_arith (SpecButton.ops 400)
        (latch fresh (poll_at 1000 false true (click_dev 0x40)))
        (click_dev 0x40) 1000).2 = Gesture.DOUBLE_TAPPED := by
  decide

/-- C16, amended: with the interrupt pending and tap suppression expired
(`(tm - tapSuppress) mod 2^32 > 250`), `update` returns `DOUBLE_TAPPED` if and only if the
test `click_src & 0x60` succeeds, that is if and only if at least one of the click-source
bits `0x20` and `0x40` is set. -/
theorem double_tap_iff_any_click_bit (A : FloatOps F) (B : DebouncedButtonOps β)
    (s : CircuitPlaygroundGestures F β) (dev : Lis3dh F) (tm : Nat)
    (hirq : s.accelerometer_interrupted = true)
    (hexp : 250 < sub32 tm s.tap_ignore_start_tm) :
    ((update A B s dev tm).2 = Gesture.DOUBLE_TAPPED ↔ dev.click_src &&& 0x60 ≠ 0) ∧
      ((update A B s dev tm).2 = Gesture.DOUBLE_TAPPED ↔
        (dev.click_src / 32 % 2 = 1 ∨ dev.click_src / 64 % 2 = 1)) := by
  have h1 : (update A B s dev tm).2 = Gesture.DOUBLE_TAPPED ↔ dev.click_src &&& 0x60 ≠ 0 := by
    constructor
    · exact fun h => (update_double_tapped A B s dev tm h).2.1
    · intro hc
      have hg : (update_accelerometer A s dev tm).2 = some Gesture.DOUBLE_TAPPED := by
        unfold update_accelerometer
        rw [hirq]
        have h2 : sub32 tm s.tap_ignore_start_tm > TAP_IGNORE_MS := hexp
        simp [hc, h2]
      rw [update_eq_of_some A B s dev tm _ hg]
  exact ⟨h1, h1.trans (click_test_iff dev.click_src)⟩

/-- Witness for C16 (amended): the fresh arbiter with the interrupt pending at time 1000
and click source `0x40`. -/
theorem double_tap_iff_any_click_bit_witness :
    (update exact_arith (SpecButton.ops 400)
      (latch fresh (poll_at 1000 false true (click_dev 0x40)))
      (click_dev 0x40) 1000).2 = Gesture.DOUBLE_TAPPED :=
  (double_tap_iff_any_click_bit exact_arith (SpecButton.ops 400)
    (latch fresh (poll_at 1000 false true (click_dev 0x40))) (click_dev 0x40) 1000
    (by decide) (by decide)).2.2 (Or.inr (by decide))

/-- C17: when the interrupt flag is pending at entry, `update(tm)` clears it and, whatever
the status register says, leaves the acceleration filter and the last-shake timestamp as
they were and does not return `SHAKEN`; so a call that changes the filter or returns
`SHAKEN` had no interrupt pending. -/
theorem interrupt_excludes_sample (A : FloatOps F) (B : DebouncedButtonOps β)
    (s : CircuitPlaygroundGestures F β) (dev : Lis3dh F) (tm : Nat)
    (hirq : s.accelerometer_interrupted = true) :
    (update A B s dev tm).1.accelerometer_interrupted = false ∧
      (update A B s dev tm).1.acceleration = s.acceleration ∧
      (update A B s dev tm).1.shake_reset_start_tm = s.shake_reset_start_tm ∧
      (update A B s dev tm).2 ≠ Gesture.SHAKEN := by
  have hf := (update_accelerometer_frame A s dev tm).1
  have ho := update_orientation_frame
    ({ s with accelerometer_interrupted := false } : CircuitPlaygroundGestures F β) dev
  have hr := update_orientation_result
    ({ s with accelerometer_interrupted := false } : CircuitPlaygroundGestures F β) dev
  have hacc : (update_accelerometer A s dev tm).1.acceleration = s.acceleration ∧
      (update_accelerometer A s dev tm).1.shake_reset_start_tm = s.shake_reset_start_tm ∧
      (update_accelerometer A s dev tm).2 ≠ some Gesture.SHAKEN := by
    unfold update_accelerometer
    rw [hirq]
    simp only [if_true]
    split_ifs
    · simp
    · exact ⟨hr.2.2, ho.2.2.2.1, ho.2.1⟩
    · exact ⟨hr.2.2, ho.2.2.2.1, ho.2.1⟩
  cases hg : (update_accelerometer A s dev tm).2 with
  | none =>
    obtain ⟨f1, f2, -, f4, -⟩ := update_inputs_frame B (update_accelerometer A s dev tm).1 tm
    rw [update_eq_of_none A B s dev tm hg, f1, f2, f4]
    exact ⟨hf, hacc.1, hacc.2.1, (update_inputs_gesture B _ tm).2.1⟩
  | some g =>
    rw [update_eq_of_some A B s dev tm g hg]
    refine ⟨hf, hacc.1, hacc.2.1, ?_⟩
    intro h
    simp only at h
    subst h
    exact hacc.2.2 hg

/-- Witness for C17: the fresh arbiter at time 600 with the interrupt pending while the
driver also has the sample `(60, 0, 0)` ready. -/
theorem interrupt_excludes_sample_witness :
    (update exact_arith (SpecButton.ops 400)
        (latch fresh (poll_at 600 false true (sample_dev 60)))
        (sample_dev 60) 600).1.accelerometer_interrupted = false ∧
      (update exact_arith (SpecButton.ops 400)
        (latch fresh (poll_at 600 false true (sample_dev 60)))
        (sample_dev 60) 600).1.acceleration =
          (latch fresh (poll_at 600 false true (sample_dev 60))).acceleration ∧
      (update exact_arith (SpecButton.ops 400)
        (latch fresh (poll_at 600 false true (sample_dev 60)))
        (sample_dev 60) 600).1.shake_reset_start_tm =
          (latch fresh (poll_at 600 false true (sample_dev 60))).shake_reset_start_tm ∧
      (update exact_arith (SpecButton.ops 400)
        (latch fresh (poll_at 600 false true (sample_dev 60)))
        (sample_dev 60) 600).2 ≠ Gesture.SHAKEN :=
  interrupt_excludes_sample exact_arith (SpecButton.ops 400)
    (latch fresh (poll_at 600 false true (sample_dev 60))) (sample_dev 60) 600 (by decide)

/-! ### Polls without new activity -/

/-- C18, counterexample: the poll at time 1000 brings the fresh arbiter to a state in which
the slide switch is latched high.  In the two following polls, at times 1010 and 1021, the
latched readings are the same as in that state, no interrupt is pending and the driver
reports no new sample; the poll at 1021 returns `SLIDE_SWITCHED_ON`. -/
theorem pending_debounce_counterexample :
    (run exact_arith (SpecButton.ops 400) fresh
        [poll_at 1000 true false quiet_dev]).slide_switch_reading = true ∧
      (run exact_arith (SpecButton.ops 400) fresh
        [poll_at 1000 true false quiet_dev]).left_button_reading = false ∧
      (run exact_arith (SpecButton.ops 400) fresh
        [poll_at 1000 true false quiet_dev]).right_button_reading = false ∧
      gestures exact_arith (SpecButton.ops 400)
        (run exact_arith (SpecButton.ops 400) fresh [poll_at 1000 true false quiet_dev])
        [poll_at 1010 true false quiet_dev, poll_at 1021 true false quiet_dev] =
        [Gesture.NONE, Gesture.SLIDE_SWITCHED_ON] := by
  decide

/-- One poll with no interrupt, no new sample, the slide-switch debouncer settled on the
latched reading and both button debouncers returning `NONE`: the poll returns `NONE` and
only the button objects may change. -/
theorem poll_quiet (A : FloatOps F) (B : DebouncedButtonOps β)
    (s : CircuitPlaygroundGestures F β) (p : Poll F)
    (hirq : s.accelerometer_interrupted = false)
    (hprev : s.slide_switch.prev_reading = s.slide_switch_reading)
    (hdeb : s.slide_switch.debounced_reading = s.slide_switch_reading)
    (hp : p.slide_switch_level = s.slide_switch_reading ∧
      p.left_button_level = s.left_button_reading ∧
      p.right_button_level = s.right_button_reading ∧
      p.accelerometer_interrupt = false ∧ p.dev.status_reg &&& 0x08 = 0)
    (hl : (B.update s.left_button s.left_button_reading (p.tm % 4294967296)).2 =
      ButtonInput.NONE)
    (hr : (B.update s.right_button s.right_button_reading (p.tm % 4294967296)).2 =
      ButtonInput.NONE) :
    (poll A B s p).2 = Gesture.NONE ∧
      (poll A B s p).1.accelerometer_interrupted = false ∧
      (poll A B s p).1.slide_switch = s.slide_switch ∧
      (poll A B s p).1.slide_switch_reading = s.slide_switch_reading ∧
      (poll A B s p).1.left_button_reading = s.left_button_reading ∧
      (poll A B s p).1.right_button_reading = s.right_button_reading ∧
      (poll A B s p).1.left_button =
        (B.update s.left_button s.left_button_reading (p.tm % 4294967296)).1 ∧
      (poll A B s p).1.right_button =
        (B.update s.right_button s.right_button_reading (p.tm % 4294967296)).1 := by
  obtain ⟨p1, p2, p3, p4, p5⟩ := hp
  have hsw := DebouncedSwitch.update_idle s.slide_switch s.slide_switch_reading
    (p.tm % 4294967296) hprev (Or.inl hdeb)
  unfold poll update update_accelerometer update_inputs latch
  simp only [hirq, p1, p2, p3, p4, p5, Bool.or_false, Bool.false_eq_true, if_false, ne_eq,
    not_true_eq_false]
  split_ifs <;> simp_all

/-- C18, amended: from every state with no interrupt pending in which the slide-switch
debouncer has committed the latched reading, and for every following run of polls during
which the latched readings do not change, no interrupt is pending, the driver reports no new
sample, and each button debouncer stays in a set of states (`QL`, `QR`) from which `update`
with the unchanged reading returns `NONE`, every poll returns `NONE`. -/
theorem quiet_polls_return_none (A : FloatOps F) (B : DebouncedButtonOps β)
    (QL QR : β → Prop) (polls : List (Poll F)) (s : CircuitPlaygroundGestures F β)
    (hirq : s.accelerometer_interrupted = false)
    (hprev : s.slide_switch.prev_reading = s.slide_switch_reading)
    (hdeb : s.slide_switch.debounced_reading = s.slide_switch_reading)
    (hl : QL s.left_button) (hr : QR s.right_button)
    (hL : ∀ b tm, QL b → (B.update b s.left_button_reading tm).2 = ButtonInput.NONE ∧
      QL (B.update b s.left_button_reading tm).1)
    (hR : ∀ b tm, QR b → (B.update b s.right_button_reading tm).2 = ButtonInput.NONE ∧
      QR (B.update b s.right_button_reading tm).1)
    (hpolls : ∀ p ∈ polls, p.slide_switch_level = s.slide_switch_reading ∧
      p.left_button_level = s.left_button_reading ∧
      p.right_button_level = s.right_button_reading ∧
      p.accelerometer_interrupt = false ∧ p.dev.status_reg &&& 0x08 = 0) :
    ∀ g ∈ gestures A B s polls, g = Gesture.NONE := by
  induction polls generalizing s with
  | nil => intro g hg; simp [gestures] at hg
  | cons p ps ih =>
    have hp := hpolls p (by simp)
    obtain ⟨k1, k2, k3, k4, k5, k6, k7, k8⟩ := poll_quiet A B s p hirq hprev hdeb hp
      (hL _ _ hl).1 (hR _ _ hr).1
    intro g hg
    simp only [gestures, List.mem_cons] at hg
    rcases hg with hg | hg
    · rw [hg, k1]
    · refine ih (poll A B s p).1 k2 (by rw [k3, k4]; exact hprev) (by rw [k3, k4]; exact hdeb)
        (by rw [k7]; exact (hL _ _ hl).2) (by rw [k8]; exact (hR _ _ hr).2)
        (by rw [k5]; exact hL) (by rw [k6]; exact hR) ?_ g hg
      intro q hq
      rw [k4, k5, k6]
      exact hpolls q (List.mem_cons_of_mem _ hq)

theorem spec_button_released_quiet (b : SpecButton) (tm : Nat)
    (hb : b.prev_reading = false ∧ b.debounced_reading = false) :
    ((SpecButton.ops 400).update b false tm).2 = ButtonInput.NONE ∧
      ((SpecButton.ops 400).update b false tm).1.prev_reading = false ∧
      ((SpecButton.ops 400).update b false tm).1.debounced_reading = false := by
  show (SpecButton.update 400 b false tm).2 = ButtonInput.NONE ∧
    (SpecButton.update 400 b false tm).1.prev_reading = false ∧
    (SpecButton.update 400 b false tm).1.debounced_reading = false
  simp [SpecButton.update, hb.1, hb.2]

/-- Witness for C18 (amended): the fresh arbiter with released buttons, polled at times 10
and 5000 with nothing changed, returns `NONE` both times. -/
theorem quiet_polls_return_none_witness :
    (poll exact_arith (SpecButton.ops 400) fresh (poll_at 10 false false quiet_dev)).2 =
        Gesture.NONE ∧
      (poll exact_arith (SpecButton.ops 400)
        (poll exact_arith (SpecButton.ops 400) fresh (poll_at 10 false false quiet_dev)).1
        (poll_at 5000 false false quiet_dev)).2 = Gesture.NONE :=
  ⟨quiet_polls_return_none exact_arith (SpecButton.ops 400)
      (fun b => b.prev_reading = false ∧ b.debounced_reading = false)
      (fun b => b.prev_reading = false ∧ b.debounced_reading = false)
      [poll_at 10 false false quiet_dev, poll_at 5000 false false quiet_dev] fresh
      rfl rfl rfl ⟨rfl, rfl⟩ ⟨rfl, rfl⟩ spec_button_released_quiet
      spec_button_released_quiet (by decide) _ (List.mem_cons_self _ _),
    quiet_polls_return_none exact_arith (SpecButton.ops 400)
      (fun b => b.prev_reading = false ∧ b.debounced_reading = false)
      (fun b => b.prev_reading = false ∧ b.debounced_reading = false)
      [poll_at 10 false false quiet_dev, poll_at 5000 false false quiet_dev] fresh
      rfl rfl rfl ⟨rfl, rfl⟩ ⟨rfl, rfl⟩ spec_button_released_quiet
      spec_button_released_quiet (by decide) _
      (List.mem_cons_of_mem _ (List.mem_cons_self _ _))⟩

/-! ### The acceleration filter over the reals -/

/-- The triangle inequality for the weighted sum of two vectors of `ℝ³`, with the norms
written as square roots of sums of squares. -/
theorem norm_ewma_le (ax ay az x y z : ℝ) :
    Real.sqrt ((0.6 * ax + 0.4 * x) ^ 2 + (0.6 * ay + 0.4 * y) ^ 2 + (0.6 * az + 0.4 * z) ^ 2)
      ≤ 0.6 * Real.sqrt (ax ^ 2 + ay ^ 2 + az ^ 2) + 0.4 * Real.sqrt (x ^ 2 + y ^ 2 + z ^ 2) := by
  have hN0 : 0 ≤ Real.sqrt (ax ^ 2 + ay ^ 2 + az ^ 2) := Real.sqrt_nonneg _
  have hM0 : 0 ≤ Real.sqrt (x ^ 2 + y ^ 2 + z ^ 2) := Real.sqrt_nonneg _
  have hN : Real.sqrt (ax ^ 2 + ay ^ 2 + az ^ 2) ^ 2 = ax ^ 2 + ay ^ 2 + az ^ 2 :=
    Real.sq_sqrt (by positivity)
  have hM : Real.sqrt (x ^ 2 + y ^ 2 + z ^ 2) ^ 2 = x ^ 2 + y ^ 2 + z ^ 2 :=
    Real.sq_sqrt (by positivity)
  generalize Real.sqrt (ax ^ 2 + ay ^ 2 + az ^ 2) = N at hN0 hN ⊢
  generalize Real.sqrt (x ^ 2 + y ^ 2 + z ^ 2) = M at hM0 hM ⊢
  have hcs : (ax * x + ay * y + az * z) ^ 2 ≤ (N * M) ^ 2 := by
    rw [mul_pow, hN, hM]
    nlinarith [sq_nonneg (ax * y - ay * x), sq_nonneg (ax * z - az * x),
      sq_nonneg (ay * z - az * y)]
  have hdot : ax * x + ay * y + az * z ≤ N * M :=
    (abs_le_of_sq_le_sq' hcs (mul_nonneg hN0 hM0)).2
  rw [Real.sqrt_le_left (by positivity)]
  nlinarith [hdot, hN, hM]

/-- C19: over exact real arithmetic (the `float` operations read as the operations of `ℝ`),
`add_sample` sets each axis to `0.6 * old + 0.4 * sample`, `total()` is the Euclidean norm
of the filtered vector, and `total()` after the call is at most `0.6 * total()` before plus
`0.4` times the Euclidean norm of the sample. -/
theorem ewma_filter_over_reals (A : FloatOps ℝ)
    (hlit : ∀ q : ℚ, A.lit q = (q : ℝ))
    (hadd : ∀ a b, A.add a b = a + b) (hsub : ∀ a b, A.sub a b = a - b)
    (hmul : ∀ a b, A.mul a b = a * b) (hsqrt : ∀ a, A.sqrt a = Real.sqrt a)
    (a : Acceleration ℝ) (x y z : ℝ) :
    (add_sample A a x y z).x = 0.6 * a.x + 0.4 * x ∧
      (add_sample A a x y z).y = 0.6 * a.y + 0.4 * y ∧
      (add_sample A a x y z).z = 0.6 * a.z + 0.4 * z ∧
      total A a = Real.sqrt (a.x ^ 2 + a.y ^ 2 + a.z ^ 2) ∧
      total A (add_sample A a x y z) ≤
        0.6 * total A a + 0.4 * Real.sqrt (x ^ 2 + y ^ 2 + z ^ 2) := by
  have hx : (add_sample A a x y z).x = 0.6 * a.x + 0.4 * x := by
    simp only [add_sample, ACCEL_DECAY, hlit, hadd, hsub, hmul]
    push_cast
    ring
  have hy : (add_sample A a x y z).y = 0.6 * a.y + 0.4 * y := by
    simp only [add_sample, ACCEL_DECAY, hlit, hadd, hsub, hmul]
    push_cast
    ring
  have hz : (add_sample A a x y z).z = 0.6 * a.z + 0.4 * z := by
    simp only [add_sample, ACCEL_DECAY, hlit, hadd, hsub, hmul]
    push_cast
    ring
  have ht : ∀ v : Acceleration ℝ, total A v = Real.sqrt (v.x ^ 2 + v.y ^ 2 + v.z ^ 2) := by
    intro v
    simp only [total, hadd, hmul, hsqrt]
    congr 1
    ring
  refine ⟨hx, hy, hz, ht a, ?_⟩
  rw [ht, ht, hx, hy, hz]
  exact norm_ewma_le a.x a.y a.z x y z

/-- Witness for C19: the operations of `ℝ` themselves, the filter state `(3, 4, 0)` and the
sample `(0, 0, 0)`. -/
theorem ewma_filter_over_reals_witness :
    total (FloatOps.mk (fun q : ℚ => (q : ℝ)) (fun a b => a + b) (fun a b => a - b)
        (fun a b => a * b) Real.sqrt (fun a b => decide (a < b)))
      (add_sample (FloatOps.mk (fun q : ℚ => (q : ℝ)) (fun a b => a + b) (fun a b => a - b)
        (fun a b => a * b) Real.sqrt (fun a b => decide (a < b)))
        (Acceleration.mk 3 4 0) 0 0 0) ≤
      0.6 * total (FloatOps.mk (fun q : ℚ => (q : ℝ)) (fun a b => a + b) (fun a b => a - b)
        (fun a b => a * b) Real.sqrt (fun a b => decide (a < b))) (Acceleration.mk 3 4 0) +
        0.4 * Real.sqrt ((0 : ℝ) ^ 2 + 0 ^ 2 + 0 ^ 2) :=
  (ewma_filter_over_reals (FloatOps.mk (fun q : ℚ => (q : ℝ)) (fun a b => a + b)
    (fun a b => a - b) (fun a b => a * b) Real.sqrt (fun a b => decide (a < b)))
    (fun _ => rfl) (fun _ _ => rfl) (fun _ _ => rfl) (fun _ _ => rfl) (fun _ => rfl)
    (Acceleration.mk 3 4 0) 0 0 0).2.2.2.2

end CircuitPlaygroundGestures

namespace DebouncedSwitch

/-! ### Events and `state()` -/

/-- The returned input tells how `state()` moved across one call. -/
theorem update_event_iff (s : DebouncedSwitch) (reading : Bool) (tm : Nat) :
    ((s.update reading tm).2 = Input.SWITCHED_ON ↔
        (s.state = false ∧ (s.update reading tm).1.state = true)) ∧
      ((s.update reading tm).2 = Input.SWITCHED_OFF ↔
        (s.state = true ∧ (s.update reading tm).1.state = false)) ∧
      ((s.update reading tm).2 = Input.NONE ↔ (s.update reading tm).1.state = s.state) := by
  obtain ⟨pol, deb, prev, last⟩ := s
  simp only [update, state, DEBOUNCE_MS]
  by_cases h20 : sub32 tm last > 20
  · cases pol <;> cases deb <;> cases prev <;> cases reading <;> simp [h20]
  · cases pol <;> cases deb <;> cases prev <;> cases reading <;> simp [h20]

/-- The non-`NONE` inputs of a run alternate, and the first of them is `SWITCHED_ON` when
`state()` is false at the start and `SWITCHED_OFF` when it is true. -/
theorem events_chain (calls : List (Bool × Nat)) (s : DebouncedSwitch) :
    ((s.outputs calls).filter (fun o => decide (o ≠ Input.NONE))).Chain' (fun a b => a ≠ b) ∧
      ∀ e, ((s.outputs calls).filter (fun o => decide (o ≠ Input.NONE))).head? = some e →
        (e = Input.SWITCHED_ON ∧ s.state = false) ∨
          (e = Input.SWITCHED_OFF ∧ s.state = true) := by
  induction calls generalizing s with
  | nil => simp [outputs]
  | cons c cs ih =>
    obtain ⟨hon, hoff, hnone⟩ := update_event_iff s c.1 c.2
    obtain ⟨ih1, ih2⟩ := ih (s.update c.1 c.2).1
    simp only [outputs]
    cases ho : (s.update c.1 c.2).2 with
    | NONE =>
      have hst := hnone.1 ho
      simp only [ne_eq, not_true_eq_false, decide_False, Bool.false_eq_true,
        not_false_eq_true, List.filter_cons_of_neg]
      refine ⟨ih1, fun e he => ?_⟩
      rw [← hst]
      exact ih2 e he
    | SWITCHED_ON =>
      have hst := hon.1 ho
      have hf : ∀ l : List Input, List.filter (fun o => decide (o ≠ Input.NONE))
          (Input.SWITCHED_ON :: l) =
          Input.SWITCHED_ON :: List.filter (fun o => decide (o ≠ Input.NONE)) l := fun _ => rfl
      rw [hf]
      refine ⟨?_, fun e he => ?_⟩
      · rw [List.chain'_cons']
        refine ⟨fun y hy => ?_, ih1⟩
        rcases ih2 y hy with h | h
        · rw [hst.2] at h
          exact absurd h.2 (by decide)
        · rw [h.1]
          decide
      · simp only [List.head?_cons, Option.some.injEq] at he
        exact Or.inl ⟨he.symm, hst.1⟩
    | SWITCHED_OFF =>
      have hst := hoff.1 ho
      have hf : ∀ l : List Input, List.filter (fun o => decide (o ≠ Input.NONE))
          (Input.SWITCHED_OFF :: l) =
          Input.SWITCHED_OFF :: List.filter (fun o => decide (o ≠ Input.NONE)) l := fun _ => rfl
      rw [hf]
      refine ⟨?_, fun e he => ?_⟩
      · rw [List.chain'_cons']
        refine ⟨fun y hy => ?_, ih1⟩
        rcases ih2 y hy with h | h
        · rw [h.1]
          decide
        · rw [hst.2] at h
          exact absurd h.2 (by decide)
      · simp only [List.head?_cons, Option.some.injEq] at he
        exact Or.inr ⟨he.symm, hst.1⟩

/-- C20: for every switch object (either polarity), reading and timestamp, `update`
returns `SWITCHED_ON` exactly when `state()` is false before the call and true after it,
`SWITCHED_OFF` exactly when it is true before and false after, and `NONE` exactly when it
is unchanged.  Hence the non-`NONE` inputs of any run of calls alternate between
`SWITCHED_ON` and `SWITCHED_OFF`, and the first of them on a fresh switch is `SWITCHED_ON`
for on-polarity true and `SWITCHED_OFF` for on-polarity false. -/
theorem events_alternate_with_state :
    (∀ (s : DebouncedSwitch) (reading : Bool) (tm : Nat),
        ((s.update reading tm).2 = Input.SWITCHED_ON ↔
          (s.state = false ∧ (s.update reading tm).1.state = true)) ∧
        ((s.update reading tm).2 = Input.SWITCHED_OFF ↔
          (s.state = true ∧ (s.update reading tm).1.state = false)) ∧
        ((s.update reading tm).2 = Input.NONE ↔ (s.update reading tm).1.state = s.state)) ∧
      (∀ (s : DebouncedSwitch) (calls : List (Bool × Nat)),
        ((s.outputs calls).filter (fun o => decide (o ≠ Input.NONE))).Chain'
          (fun a b => a ≠ b)) ∧
      (∀ (pol : Bool) (calls : List (Bool × Nat)) (e : Input),
        (((init pol).outputs calls).filter (fun o => decide (o ≠ Input.NONE))).head? = some e →
        e = (if pol = true then Input.SWITCHED_ON else Input.SWITCHED_OFF)) := by
  refine ⟨update_event_iff, fun s calls => (events_chain calls s).1, ?_⟩
  intro pol calls e he
  rcases (events_chain calls (init pol)).2 e he with h | h
  · cases pol
    · exact absurd h.2 (by decide)
    · rw [h.1]; rfl
  · cases pol
    · rw [h.1]; rfl
    · exact absurd h.2 (by decide)

/-- Witness for C20: a fresh switch of on-polarity false fed `true` at times 0 and 30
reports `SWITCHED_OFF` first. -/
theorem events_alternate_with_state_witness :
    (((init false).outputs [(true, 0), (true, 30)]).filter
        (fun o => decide (o ≠ Input.NONE))).head? = some Input.SWITCHED_OFF ∧
      Input.SWITCHED_OFF = (if false = true then Input.SWITCHED_ON else Input.SWITCHED_OFF) :=
  ⟨by decide,
    events_alternate_with_state.2.2 false [(true, 0), (true, 30)] Input.SWITCHED_OFF
      (by decide)⟩

end DebouncedSwitch

namespace CircuitPlaygroundGestures

variable {F β : Type}

/-! ### The stored orientation is never reset to unknown -/

/-- A motion source that passes the test `int1_src & 0x3F` decodes, as a byte, to one of the
six axes. -/
theorem decode_known (c : Nat) (h : c &&& 0x3F ≠ 0) :
    orientation_for_int1_src (c % 256) ≠ Orientation.UNKNOWN_ORIENTATION := by
  have e : c &&& 0x3F = c % 64 := Nat.and_pow_two_sub_one_eq_mod c 6
  rw [e] at h
  intro hu
  have h0 := (orientation_byte_table (c % 256) (Nat.mod_lt _ (by decide))).2.1.1 hu
  omega

theorem known_axes (o : Orientation) (h : o ≠ Orientation.UNKNOWN_ORIENTATION) :
    o ∈ [Orientation.Z_UP, Orientation.Z_DOWN, Orientation.Y_UP, Orientation.Y_DOWN,
      Orientation.X_UP, Orientation.X_DOWN] := by
  cases o <;> simp at h ⊢

theorem update_orientation_guard (s : CircuitPlaygroundGestures F β) (dev : Lis3dh F) :
    ((update_orientation s dev).2 = some Gesture.ORIENTATION_CHANGED →
        dev.int1_src &&& 0x3F ≠ 0) ∧
      (dev.int1_src &&& 0x3F = 0 → (update_orientation s dev).2 = none) := by
  unfold update_orientation
  simp only
  split_ifs with h1 h2
  · exact ⟨fun _ => h1, fun h => absurd h h1⟩
  · exact ⟨fun h => absurd h (by simp), fun _ => rfl⟩
  · exact ⟨fun h => absurd h (by simp), fun _ => rfl⟩

theorem update_accelerometer_guard (A : FloatOps F) (s : CircuitPlaygroundGestures F β)
    (dev : Lis3dh F) (tm : Nat)
    (h : (update_accelerometer A s dev tm).2 = some Gesture.ORIENTATION_CHANGED) :
    dev.int1_src &&& 0x3F ≠ 0 := by
  unfold update_accelerometer at h
  have ho := (update_orientation_guard
    ({ s with accelerometer_interrupted := false } : CircuitPlaygroundGestures F β) dev).1
  cases hi : s.accelerometer_interrupted
  · rw [hi] at h
    simp only [Bool.false_eq_true, if_false] at h
    split_ifs at h <;> simp at h
  · rw [hi] at h
    simp only [if_true] at h
    split_ifs at h
    · simp at h
    · exact ho h
    · exact ho h

/-- Across one call of `update` the stored orientation is kept, or the call returns
`ORIENTATION_CHANGED` and stores the decoding of a motion source that passed the test
`int1_src & 0x3F`. -/
theorem update_orientation_cases (A : FloatOps F) (B : DebouncedButtonOps β)
    (s : CircuitPlaygroundGestures F β) (dev : Lis3dh F) (tm : Nat) :
    ((update A B s dev tm).2 ≠ Gesture.ORIENTATION_CHANGED ∧
        (update A B s dev tm).1.orientation = s.orientation) ∨
      ((update A B s dev tm).2 = Gesture.ORIENTATION_CHANGED ∧
        (update A B s dev tm).1.orientation =
          orientation_for_int1_src (dev.int1_src % 256) ∧
        dev.int1_src &&& 0x3F ≠ 0) := by
  have ho := update_accelerometer_orientation A s dev tm
  cases hg : (update_accelerometer A s dev tm).2 with
  | none =>
    left
    rw [update_eq_of_none A B s dev tm hg, (update_inputs_frame B _ tm).2.2.1]
    exact ⟨(update_inputs_gesture B _ tm).2.2, ho.2 (by rw [hg]; simp)⟩
  | some g =>
    rw [update_eq_of_some A B s dev tm g hg]
    by_cases hc : g = Gesture.ORIENTATION_CHANGED
    · right
      subst hc
      exact ⟨rfl, (ho.1 hg).2.1, update_accelerometer_guard A s dev tm hg⟩
    · left
      refine ⟨hc, ho.2 ?_⟩
      rw [hg]
      exact fun h => hc (Option.some.inj h)

theorem poll_orientation_known (A : FloatOps F) (B : DebouncedButtonOps β)
    (s : CircuitPlaygroundGestures F β) (p : Poll F)
    (h : s.orientation ≠ Orientation.UNKNOWN_ORIENTATION) :
    (poll A B s p).1.orientation ≠ Orientation.UNKNOWN_ORIENTATION := by
  unfold poll
  rcases update_orientation_cases A B (latch s p) p.dev (p.tm % 4294967296) with hc | hc
  · rw [hc.2]
    exact h
  · rw [hc.2.1]
    exact decode_known _ hc.2.2

theorem run_orientation_known (A : FloatOps F) (B : DebouncedButtonOps β)
    (polls : List (Poll F)) (s : CircuitPlaygroundGestures F β)
    (h : s.orientation ≠ Orientation.UNKNOWN_ORIENTATION) :
    (run A B s polls).orientation ≠ Orientation.UNKNOWN_ORIENTATION := by
  induction polls generalizing s with
  | nil => exact h
  | cons p ps ih => exact ih (poll A B s p).1 (poll_orientation_known A B s p h)

theorem run_polls_append (A : FloatOps F) (B : DebouncedButtonOps β)
    (l1 l2 : List (Poll F)) (s : CircuitPlaygroundGestures F β) :
    run A B s (l1 ++ l2) = run A B (run A B s l1) l2 := by
  induction l1 generalizing s with
  | nil => rfl
  | cons p ps ih => exact ih (poll A B s p).1

/-- C21: `update` never stores `UNKNOWN_ORIENTATION`.  For every arbiter state and all
register values: an orientation that is not unknown before the call is not unknown after
it; when the call returns `ORIENTATION_CHANGED` the new orientation is one of the six axes;
a motion source with none of the low six bits set leaves the orientation untouched; and in
every run of polls from the initial state the orientation, once known, stays known. -/
theorem orientation_never_reverts (A : FloatOps F) (B : DebouncedButtonOps β) :
    (∀ (s : CircuitPlaygroundGestures F β) (dev : Lis3dh F) (tm : Nat),
        (s.orientation ≠ Orientation.UNKNOWN_ORIENTATION →
          (update A B s dev tm).1.orientation ≠ Orientation.UNKNOWN_ORIENTATION) ∧
        ((update A B s dev tm).2 = Gesture.ORIENTATION_CHANGED →
          (update A B s dev tm).1.orientation ∈
            [Orientation.Z_UP, Orientation.Z_DOWN, Orientation.Y_UP, Orientation.Y_DOWN,
              Orientation.X_UP, Orientation.X_DOWN]) ∧
        (dev.int1_src % 64 = 0 → (update A B s dev tm).1.orientation = s.orientation)) ∧
      (∀ (pre post : List (Poll F)),
        (run A B (init A B) pre).orientation ≠ Orientation.UNKNOWN_ORIENTATION →
        (run A B (init A B) (pre ++ post)).orientation ≠ Orientation.UNKNOWN_ORIENTATION) := by
  constructor
  · intro s dev tm
    have hc := update_orientation_cases A B s dev tm
    refine ⟨fun h => ?_, fun h => ?_, fun h => ?_⟩
    · rcases hc with hc | hc
      · rw [hc.2]; exact h
      · rw [hc.2.1]; exact decode_known _ hc.2.2
    · rcases hc with hc | hc
      · exact absurd h hc.1
      · rw [hc.2.1]; exact known_axes _ (decode_known _ hc.2.2)
    · rcases hc with hc | hc
      · exact hc.2
      · have e : dev.int1_src &&& 0x3F = dev.int1_src % 64 :=
          Nat.and_pow_two_sub_one_eq_mod dev.int1_src 6
        exact absurd (e.trans h) hc.2.2
  · intro pre post h
    rw [run_polls_append]
    exact run_orientation_known A B post _ h

/-- Witness for C21: the fresh arbiter learns `Z_UP` at time 100; at time 200 an interrupt
with motion source `0x40` (none of the low six bits) leaves it at `Z_UP`. -/
theorem orientation_never_reverts_witness :
    (run exact_arith (SpecButton.ops 400)
        (init exact_arith (SpecButton.ops 400))
        [poll_at 100 false true { quiet_dev with int1_src := 0x20 }]).orientation =
          Orientation.Z_UP ∧
      (run exact_arith (SpecButton.ops 400)
        (init exact_arith (SpecButton.ops 400))
        ([poll_at 100 false true { quiet_dev with int1_src := 0x20 }] ++
          [poll_at 200 false true { quiet_dev with int1_src := 0x40 }])).orientation ≠
          Orientation.UNKNOWN_ORIENTATION :=
  ⟨by decide,
    (orientation_never_reverts exact_arith (SpecButton.ops 400)).2
      [poll_at 100 false true { quiet_dev with int1_src := 0x20 }]
      [poll_at 200 false true { quiet_dev with int1_src := 0x40 }] (by decide)⟩

end CircuitPlaygroundGestures
